import Mathlib

/-!
# Search-and-forecast controller of `src/App.jsx`

A shallow embedding of the React component `App`: its state hooks become the
record `AppState`, every `async` function is cut at its `await` points into
pure segments, and the event loop becomes `Controller.step`, which runs one
segment per event.  Network responses are inputs of the model.
-/

namespace WeatherApp

/-! ## Data model -/

/-- A JavaScript number that the code stores, compares or prints. -/
abbrev JSNumber := Rat

/-- One entry of `results` in a geocoding response. -/
structure Place where
  name : String
  country : String
  admin1 : Option String
  latitude : JSNumber
  longitude : JSNumber
deriving DecidableEq

/-- Body of a geocoding response; `results` is missing when nothing matched. -/
structure GeocodingData where
  results : Option (List Place)
deriving DecidableEq

/-- The `hourly` block of a forecast response. -/
structure Hourly where
  time : Option (List String)
  precipitation_probability : Option (List JSNumber)
deriving DecidableEq

/-- The `current` block of a forecast response: the seven fields that the
request of line 64 asks for. -/
structure CurrentBlock where
  temperature_2m : JSNumber
  relative_humidity_2m : JSNumber
  apparent_temperature : JSNumber
  precipitation : JSNumber
  weather_code : JSNumber
  wind_speed_10m : JSNumber
  wind_direction_10m : JSNumber
deriving DecidableEq

/-- Body of a forecast response.  `error` is the truthiness of the field
`error`; `reason` is the field `reason` when it is there. -/
structure WeatherData where
  error : Bool
  reason : Option String
  current : CurrentBlock
  hourly : Option Hourly
deriving DecidableEq

/-- The object literal `{ name, country, latitude, longitude }` of line 74. -/
structure Location where
  name : String
  country : String
  latitude : JSNumber
  longitude : JSNumber
deriving DecidableEq

/-- The object built at lines 72-76: the spread of `weatherData.current`
followed by `location` and `hourly`. -/
structure Weather where
  temperature_2m : JSNumber
  relative_humidity_2m : JSNumber
  apparent_temperature : JSNumber
  precipitation : JSNumber
  weather_code : JSNumber
  wind_speed_10m : JSNumber
  wind_direction_10m : JSNumber
  location : Location
  hourly : Option Hourly
deriving DecidableEq

/-- The eight `useState` cells of lines 4-11. -/
structure AppState where
  city : String
  weather : Option Weather
  loading : Bool
  error : String
  searchHistory : List String
  suggestions : List Place
  showSuggestions : Bool
  searchLoading : Bool
deriving DecidableEq

/-- Initial values of the state cells (the arguments of `useState`). -/
def AppState.initial : AppState where
  city := ""
  weather := none
  loading := false
  error := ""
  searchHistory := []
  suggestions := []
  showSuggestions := false
  searchLoading := false

/-- A network request issued by `fetch`. The constant query parameters
(`language=en`, `format=json`, the field lists, `timezone=auto`) are left out. -/
inductive Request where
  | geocoding (name : String) (count : Nat)
  | forecast (latitude longitude : JSNumber)
deriving DecidableEq

/-- What `await fetch(..)` followed by `await response.json()` yields: the
parsed body, or a thrown error, of which the code reads only `message`. -/
abbrev Response (α : Type) := Except String α

/-! ## JavaScript string primitives -/

/-- `String.prototype.length`: the number of UTF-16 code units. -/
def jsLength (s : String) : Nat :=
  (s.data.map fun c => if c.toNat < 65536 then 1 else 2).sum

/-- WhiteSpace and LineTerminator code points, the ones `trim` removes. -/
def jsIsWhiteSpace (c : Char) : Bool :=
  let n := c.toNat
  n = 9 || n = 10 || n = 11 || n = 12 || n = 13 || n = 32 || n = 160 ||
  n = 5760 || (8192 ≤ n && n ≤ 8202) || n = 8232 || n = 8233 || n = 8239 ||
  n = 8287 || n = 12288 || n = 65279

/-- `String.prototype.trim`. -/
def jsTrim (s : String) : String :=
  String.mk ((s.data.dropWhile jsIsWhiteSpace).reverse.dropWhile jsIsWhiteSpace).reverse

/-- The test `!cityName.trim()` of line 43: the trimmed string is empty. -/
def isBlank (cityName : String) : Bool :=
  (jsTrim cityName).data.isEmpty

/-! ## `fetchSuggestions` (lines 13-40) -/

/-- Lines 14-24: from the call up to the `await`.  Gives the new state and the
request that is awaited, if one was sent. -/
def fetchSuggestions_start (query : String) (s : AppState) : AppState × Option Request :=
  if jsLength query < 2 then
    ({ s with suggestions := [], showSuggestions := false }, none)
  else
    ({ s with searchLoading := true }, some (Request.geocoding query 5))

/-- The list that lines 27-36 store for a response: `data.results` when it is
there and non-empty, the empty list otherwise and on a thrown error. -/
def suggestionsOf (response : Response GeocodingData) : List Place :=
  match response with
  | .ok data =>
    match data.results with
    | some (r :: rs) => r :: rs
    | _ => []
  | .error _ => []

/-- Lines 25-39: the rest of the function, run when the response arrives. -/
def fetchSuggestions_resume (response : Response GeocodingData) (s : AppState) : AppState :=
  let s1 : AppState :=
    match response with
    | .ok data =>
      match data.results with
      | some (r :: rs) => { s with suggestions := r :: rs, showSuggestions := true }
      | _ => { s with suggestions := [], showSuggestions := false }
    | .error _ => { s with suggestions := [], showSuggestions := false }
  { s1 with searchLoading := false }

/-- One whole call of `fetchSuggestions` with nothing running in between. -/
def fetchSuggestions (query : String) (response : Response GeocodingData) (s : AppState) :
    AppState × List Request :=
  match fetchSuggestions_start query s with
  | (s1, none) => (s1, [])
  | (s1, some req) => (fetchSuggestions_resume response s1, [req])

/-! ## `fetchWeather` (lines 42-90) -/

/-- Message of the error thrown at line 57. -/
def cityNotFoundMessage : String :=
  "City not found. Please check the spelling and try again."

/-- Right operand of `||` at line 69. -/
def genericFailureMessage : String :=
  "Failed to fetch weather data"

/-- The expression `weatherData.reason || (generic message)` of line 69: a
missing or empty `reason` is falsy. -/
def reasonOrGeneric (reason : Option String) : String :=
  match reason with
  | some r => if r = "" then genericFailureMessage else r
  | none => genericFailureMessage

/-- The updater of lines 80-83 applied to `prev`. -/
def addToSearchHistory (cityName : String) (prev : List String) : List String :=
  (cityName :: prev.filter (fun item => item != cityName)).take 5

/-- Lines 84-89: `catch` followed by `finally`. -/
def fetchWeather_catch (message : String) (s : AppState) : AppState :=
  { s with error := message, weather := none, loading := false }

/-- Lines 43-53: from the call up to the first `await`. -/
def fetchWeather_start (cityName : String) (s : AppState) : AppState × Option Request :=
  if isBlank cityName then (s, none)
  else
    ({ s with loading := true, error := "", showSuggestions := false },
      some (Request.geocoding cityName 1))

/-- Lines 54-65: run when the geocoding response arrives.  Either the call
ends in `catch`, or the first match is kept and the forecast request sent. -/
def fetchWeather_afterGeocoding (response : Response GeocodingData) (s : AppState) :
    AppState × Option (Place × Request) :=
  match response with
  | .error message => (fetchWeather_catch message s, none)
  | .ok geocodingData =>
    match geocodingData.results with
    | some (first :: _) => (s, some (first, Request.forecast first.latitude first.longitude))
    | _ => (fetchWeather_catch cityNotFoundMessage s, none)

/-- The object stored by `setWeather` at lines 72-76. -/
def buildWeather (place : Place) (weatherData : WeatherData) : Weather where
  temperature_2m := weatherData.current.temperature_2m
  relative_humidity_2m := weatherData.current.relative_humidity_2m
  apparent_temperature := weatherData.current.apparent_temperature
  precipitation := weatherData.current.precipitation
  weather_code := weatherData.current.weather_code
  wind_speed_10m := weatherData.current.wind_speed_10m
  wind_direction_10m := weatherData.current.wind_direction_10m
  location :=
    { name := place.name, country := place.country,
      latitude := place.latitude, longitude := place.longitude }
  hourly := weatherData.hourly

/-- Lines 66-89: run when the forecast response arrives. -/
def fetchWeather_afterForecast (cityName : String) (place : Place)
    (response : Response WeatherData) (s : AppState) : AppState :=
  match response with
  | .error message => fetchWeather_catch message s
  | .ok weatherData =>
    if weatherData.error then
      fetchWeather_catch (reasonOrGeneric weatherData.reason) s
    else
      { s with
        weather := some (buildWeather place weatherData)
        searchHistory := addToSearchHistory cityName s.searchHistory
        loading := false }

/-- One whole call of `fetchWeather` with nothing running in between: the
final state and the requests sent, in order.  `forecastResponse` is read
only when the forecast request is sent. -/
def fetchWeather (cityName : String) (geocodingResponse : Response GeocodingData)
    (forecastResponse : Response WeatherData) (s : AppState) : AppState × List Request :=
  match fetchWeather_start cityName s with
  | (s1, none) => (s1, [])
  | (s1, some req1) =>
    match fetchWeather_afterGeocoding geocodingResponse s1 with
    | (s2, none) => (s2, [req1])
    | (s2, some (place, req2)) =>
      (fetchWeather_afterForecast cityName place forecastResponse s2, [req1, req2])

/-! ## The event loop -/

/-- An `async` call suspended at an `await`. -/
inductive Pending where
  | suggestions (query : String)
  | geocoding (cityName : String)
  | forecast (cityName : String) (place : Place)
deriving DecidableEq

/-- The component together with its calls in flight and the requests sent. -/
structure Controller where
  app : AppState
  pending : List Pending
  requests : List Request
deriving DecidableEq

/-- The freshly mounted component. -/
def Controller.initial : Controller where
  app := AppState.initial
  pending := []
  requests := []

/-- What can happen next: a handler is called, or the response awaited by the
call at position `i` of `pending` arrives. -/
inductive Event where
  | cityChange (value : String)
  | debounceElapsed
  | submit
  | suggestionClick (suggestion : Place)
  | historyClick (item : String)
  | inputFocus
  | blurTimerElapsed
  | geocodingArrives (i : Nat) (response : Response GeocodingData)
  | forecastArrives (i : Nat) (response : Response WeatherData)

/-- A call of `fetchSuggestions(query)` up to its `await`. -/
def Controller.callFetchSuggestions (query : String) (c : Controller) : Controller :=
  match fetchSuggestions_start query c.app with
  | (s, none) => { c with app := s }
  | (s, some req) =>
    { app := s, pending := c.pending ++ [Pending.suggestions query],
      requests := c.requests ++ [req] }

/-- A call of `fetchWeather(cityName)` up to its first `await`. -/
def Controller.callFetchWeather (cityName : String) (c : Controller) : Controller :=
  match fetchWeather_start cityName c.app with
  | (s, none) => { c with app := s }
  | (s, some req) =>
    { app := s, pending := c.pending ++ [Pending.geocoding cityName],
      requests := c.requests ++ [req] }

/-- One turn of the event loop. -/
def Controller.step (c : Controller) : Event → Controller
  | .cityChange value =>
    -- handleCityChange, lines 97-101
    Controller.callFetchSuggestions value { c with app := { c.app with city := value } }
  | .debounceElapsed =>
    -- the timer callback of lines 111-115
    if 2 ≤ jsLength c.app.city then Controller.callFetchSuggestions c.app.city c else c
  | .submit =>
    -- handleSubmit, lines 92-95
    Controller.callFetchWeather c.app.city c
  | .suggestionClick suggestion =>
    -- handleSuggestionClick, lines 103-107
    let text := suggestion.name ++ ", " ++ suggestion.country
    Controller.callFetchWeather text
      { c with app := { c.app with city := text, showSuggestions := false } }
  | .historyClick item =>
    -- the onClick of lines 564-567; the button of lines 562-567 has no `type`
    -- and stands inside the form of line 357, so the click also submits the
    -- form: handleSubmit then calls fetchWeather with the city of the render
    -- in which the click happened
    Controller.callFetchWeather c.app.city
      (Controller.callFetchWeather item { c with app := { c.app with city := item } })
  | .inputFocus =>
    -- the onFocus of lines 383-390 (the later of the two onFocus attributes)
    if c.app.suggestions.length > 0 then
      { c with app := { c.app with showSuggestions := true } }
    else c
  | .blurTimerElapsed =>
    -- the timer callback of line 396, set by onBlur
    { c with app := { c.app with showSuggestions := false } }
  | .geocodingArrives i response =>
    match c.pending[i]? with
    | some (Pending.suggestions _) =>
      { c with app := fetchSuggestions_resume response c.app, pending := c.pending.eraseIdx i }
    | some (Pending.geocoding cityName) =>
      match fetchWeather_afterGeocoding response c.app with
      | (s, none) => { c with app := s, pending := c.pending.eraseIdx i }
      | (s, some (place, req)) =>
        { app := s, pending := c.pending.eraseIdx i ++ [Pending.forecast cityName place],
          requests := c.requests ++ [req] }
    | _ => c
  | .forecastArrives i response =>
    match c.pending[i]? with
    | some (Pending.forecast cityName place) =>
      { c with
        app := fetchWeather_afterForecast cityName place response c.app
        pending := c.pending.eraseIdx i }
    | _ => c

/-- Runs a sequence of events from left to right. -/
def Controller.run (c : Controller) (events : List Event) : Controller :=
  events.foldl Controller.step c

/-! ## Derivations used by the claims -/

/-- The object literal `descriptions` of lines 156-181. -/
def descriptions : List (JSNumber × String) :=
  [(0, "Clear sky"), (1, "Mainly clear"), (2, "Partly cloudy"), (3, "Overcast"),
   (45, "Foggy"), (48, "Depositing rime fog"),
   (51, "Light drizzle"), (53, "Moderate drizzle"), (55, "Dense drizzle"),
   (61, "Slight rain"), (63, "Moderate rain"), (65, "Heavy rain"),
   (71, "Slight snow"), (73, "Moderate snow"), (75, "Heavy snow"), (77, "Snow grains"),
   (80, "Slight rain showers"), (81, "Moderate rain showers"), (82, "Violent rain showers"),
   (85, "Slight snow showers"), (86, "Heavy snow showers"),
   (95, "Thunderstorm"), (96, "Thunderstorm with slight hail"),
   (99, "Thunderstorm with heavy hail")]

/-- Lines 155-183: the entry of `descriptions` under the key `weatherCode`,
or the fallback of line 182 when there is none (every entry is truthy). -/
def getWeatherDescription (weatherCode : JSNumber) : String :=
  match descriptions.lookup weatherCode with
  | some label => label
  | none => "Unknown"

/-! ## Scenarios and sample data -/

/-- The race of the suggestion path: `q1` is typed, then `q2`; the response
for `q2` arrives first and the response for `q1` last. -/
def lateFirstResponse (c : Controller) (q1 q2 : String)
    (r1 r2 : Response GeocodingData) : Controller :=
  c.run [Event.cityChange q1, Event.cityChange q2,
    Event.geocodingArrives (c.pending.length + 1) r2,
    Event.geocodingArrives c.pending.length r1]

/-- A lookup: the city submitted and the responses its two requests receive. -/
structure Lookup where
  cityName : String
  geocodingResponse : Response GeocodingData
  forecastResponse : Response WeatherData

/-- The geocoder answered with at least one match. -/
def hasMatch (response : Response GeocodingData) : Bool :=
  match response with
  | .ok data =>
    match data.results with
    | some (_ :: _) => true
    | _ => false
  | .error _ => false

/-- The forecast provider answered with a body without error indicator. -/
def hasForecast (response : Response WeatherData) : Bool :=
  match response with
  | .ok weatherData => !weatherData.error
  | .error _ => false

/-- The lookup reaches `setWeather` at line 72: the city is not blank, the
geocoder has a match and the forecast response is not an error. -/
def Lookup.succeeds (l : Lookup) : Bool :=
  !isBlank l.cityName && hasMatch l.geocodingResponse && hasForecast l.forecastResponse

/-- Runs the lookups one after the other, each to its end before the next. -/
def runLookups (s : AppState) (lookups : List Lookup) : AppState :=
  lookups.foldl
    (fun st l => (fetchWeather l.cityName l.geocodingResponse l.forecastResponse st).1) s

def london : Place :=
  { name := "London", country := "United Kingdom", admin1 := some "England",
    latitude := 51.50853, longitude := -0.12574 }

def lonavla : Place :=
  { name := "Lonavla", country := "India", admin1 := some "Maharashtra",
    latitude := 18.75275, longitude := 73.40575 }

def paris : Place :=
  { name := "Paris", country := "FR", admin1 := none,
    latitude := 48.8566, longitude := 2.3522 }

/-- A forecast body for Paris: 18 degrees, weather code 2. -/
def parisForecast : WeatherData :=
  { error := false, reason := none,
    current :=
      { temperature_2m := 18, relative_humidity_2m := 60, apparent_temperature := 17,
        precipitation := 0, weather_code := 2, wind_speed_10m := 12,
        wind_direction_10m := 180 },
    hourly := some { time := some ["2024-05-01T00:00", "2024-05-01T01:00"],
                     precipitation_probability := some [10, 20] } }

/-- A successful lookup of `cityName`, answered with the Paris sample data. -/
def okLookup (cityName : String) : Lookup :=
  { cityName := cityName, geocodingResponse := .ok { results := some [paris] },
    forecastResponse := .ok parisForecast }

/-- Six successful lookups of six distinct cities. -/
def sixLookups : List Lookup :=
  [okLookup "Paris", okLookup "Cairo", okLookup "Lima", okLookup "Oslo", okLookup "Rome",
   okLookup "Tokyo"]

/-- Two overlapping lookups.  The user types `Zzxyqq` and submits; while that
request is out the user types `Paris`, the suggestions for it arrive and the
user clicks the entry Paris, FR (the entries of lines 436-438 are not tied
to `loading`).  The geocoder then finds nothing for `Zzxyqq`; afterwards
both responses for Paris arrive, and last the suggestions for `Zzxyqq`. -/
def overlappingLookups : List Event :=
  [Event.cityChange "Zzxyqq", Event.submit,
   Event.cityChange "Paris",
   Event.geocodingArrives 2 (.ok { results := some [paris] }),
   Event.suggestionClick paris,
   Event.geocodingArrives 1 (.ok { results := none }),
   Event.geocodingArrives 1 (.ok { results := some [paris] }),
   Event.forecastArrives 1 (.ok parisForecast),
   Event.geocodingArrives 0 (.ok { results := none })]

/-! ## Derivation library (lines 150-262) -/

/-- `Math.round` on a finite number: the nearest integer, a half rounded up. -/
def jsRound (x : JSNumber) : Int :=
  ⌊x + 1 / 2⌋

/-- The operator `%` on integers: the result has the sign of the dividend. -/
def jsRem (a b : Int) : Int :=
  Int.tmod a b

/-- The expression `array[index]` for an integer index: `undefined`, here
`none`, when the index is negative or past the end. -/
def jsIndex {α : Type} (array : List α) (index : Int) : Option α :=
  if index < 0 then none else array[index.toNat]?

/-- The array `directions` of line 151. -/
def directions : List String :=
  ["N", "NNE", "NE", "ENE", "E", "ESE", "SE", "SSE",
   "S", "SSW", "SW", "WSW", "W", "WNW", "NW", "NNW"]

/-- Lines 150-153.  The result is `none` where the code returns `undefined`.
The division is exact here, while the code divides in doubles: on 0..360
both give the same index, far above 360 the rounded quotients can differ. -/
def getWindDirection (degrees : JSNumber) : Option String :=
  jsIndex directions (jsRem (jsRound (degrees / 22.5)) 16)

/-- Lines 200-210. -/
def getTemperatureAccentColor (temperature : JSNumber) : String :=
  if temperature ≥ 35 then "rgba(255, 69, 0, 0.1)"
  else if temperature ≥ 30 then "rgba(255, 140, 0, 0.1)"
  else if temperature ≥ 25 then "rgba(255, 215, 0, 0.1)"
  else if temperature ≥ 20 then "rgba(152, 251, 152, 0.1)"
  else if temperature ≥ 15 then "rgba(135, 206, 235, 0.1)"
  else if temperature ≥ 10 then "rgba(65, 105, 225, 0.1)"
  else if temperature ≥ 5 then "rgba(30, 144, 255, 0.1)"
  else if temperature ≥ 0 then "rgba(0, 191, 255, 0.1)"
  else "rgba(25, 25, 112, 0.1)"

/-- The threshold ladder in the words of the specification: the cut points
from the highest down, each with the token of its band. -/
def accentLadder : List (JSNumber × String) :=
  [(35, "rgba(255, 69, 0, 0.1)"), (30, "rgba(255, 140, 0, 0.1)"),
   (25, "rgba(255, 215, 0, 0.1)"), (20, "rgba(152, 251, 152, 0.1)"),
   (15, "rgba(135, 206, 235, 0.1)"), (10, "rgba(65, 105, 225, 0.1)"),
   (5, "rgba(30, 144, 255, 0.1)"), (0, "rgba(0, 191, 255, 0.1)")]

/-- The token of the band below the lowest cut point. -/
def belowFreezingToken : String :=
  "rgba(25, 25, 112, 0.1)"

/-- The parts of the host `Date` object that lines 237-260 use.  `getHours`
is `new Date(t).getHours()`, with `none` for `NaN`; `hourLabel` is
`new Date(t).toLocaleTimeString` with the options of lines 246-249. -/
structure DateRuntime where
  getHours : String → Option Nat
  hourLabel : String → String

/-- The object returned at lines 244-250 and 255-261; `probability` is `none`
when the array has no entry at that index. -/
structure NextHour where
  probability : Option JSNumber
  time : String
deriving DecidableEq

/-- The comparison `hourTime.getHours() > currentHour`, false for `NaN`. -/
def hourExceeds (hour : Option Nat) (currentHour : Nat) : Bool :=
  match hour with
  | some h => decide (currentHour < h)
  | none => false

/-- The loop of lines 241-252 from index `i` on, over the timestamps not yet
visited: the object returned inside the loop, or `none` when it runs out. -/
def scanHours (rt : DateRuntime) (currentHour : Nat) (probabilities : List JSNumber) :
    List String → Nat → Option NextHour
  | [], _ => none
  | t :: rest, i =>
    if hourExceeds (rt.getHours t) currentHour then
      some { probability := probabilities[i]?, time := rt.hourLabel t }
    else scanHours rt currentHour probabilities rest (i + 1)

/-- Lines 232-262, with the hour of `new Date()` as the input `currentHour`.
The label of a missing first timestamp is the text every host gives for an
invalid date. -/
def getNextHourPrecipitationProbability (rt : DateRuntime) (currentHour : Nat)
    (hourlyData : Option Hourly) : Option NextHour :=
  match hourlyData with
  | none => none
  | some hd =>
    match hd.precipitation_probability, hd.time with
    | some probabilities, some time =>
      match scanHours rt currentHour probabilities time 0 with
      | some found => some found
      | none =>
        some { probability := probabilities[0]?,
               time := match time[0]? with
                 | some t => rt.hourLabel t
                 | none => "Invalid Date" }
    | _, _ => none

/-- Labels of the 24 hours in the 12-hour clock. -/
def hourLabels : List String :=
  ["12 AM", "1 AM", "2 AM", "3 AM", "4 AM", "5 AM", "6 AM", "7 AM", "8 AM", "9 AM",
   "10 AM", "11 AM", "12 PM", "1 PM", "2 PM", "3 PM", "4 PM", "5 PM", "6 PM", "7 PM",
   "8 PM", "9 PM", "10 PM", "11 PM"]

/-- Hour of a timestamp in the format of the provider, `YYYY-MM-DDTHH:MM`,
read as local time. -/
def isoHour (t : String) : Option Nat :=
  match t.data with
  | [_, _, _, _, _, _, _, _, _, _, _, h1, h2, _, _, _] =>
    if h1.isDigit && h2.isDigit && (h1.toNat - 48) * 10 + (h2.toNat - 48) < 24 then
      some ((h1.toNat - 48) * 10 + (h2.toNat - 48))
    else none
  | _ => none

/-- A host for the examples: provider timestamps, labels in the 12-hour clock. -/
def isoRuntime : DateRuntime where
  getHours := isoHour
  hourLabel := fun t =>
    match isoHour t with
    | some h => hourLabels.getD h "Invalid Date"
    | none => "Invalid Date"

/-- An hourly block of four hours. -/
def sampleHourly : Hourly :=
  { time := some ["2024-05-01T00:00", "2024-05-01T01:00", "2024-05-01T02:00",
                  "2024-05-01T03:00"],
    precipitation_probability := some [10, 20, 30, 40] }

/-- The timestamps of one day as the provider sends them, midnight first. -/
def dayTimes : List String :=
  ["2024-05-01T00:00", "2024-05-01T01:00", "2024-05-01T02:00", "2024-05-01T03:00",
   "2024-05-01T04:00", "2024-05-01T05:00", "2024-05-01T06:00", "2024-05-01T07:00",
   "2024-05-01T08:00", "2024-05-01T09:00", "2024-05-01T10:00", "2024-05-01T11:00",
   "2024-05-01T12:00", "2024-05-01T13:00", "2024-05-01T14:00", "2024-05-01T15:00",
   "2024-05-01T16:00", "2024-05-01T17:00", "2024-05-01T18:00", "2024-05-01T19:00",
   "2024-05-01T20:00", "2024-05-01T21:00", "2024-05-01T22:00", "2024-05-01T23:00"]

/-- One probability for each timestamp of `dayTimes`. -/
def dayProbabilities : List JSNumber :=
  [0, 7, 14, 21, 28, 35, 42, 49, 56, 63, 70, 77, 84, 91, 98, 5, 12, 19, 26, 33, 40, 47, 54,
   61]

/-! ## Scenarios of the suggestion and forecast paths -/

/-- The fields that no line of `fetchSuggestions` sets are the same in `s`
and `t`: `city`, `weather`, `loading`, `error` and `searchHistory`. -/
def keepsForecastFields (s t : AppState) : Prop :=
  t.city = s.city ∧ t.weather = s.weather ∧ t.loading = s.loading ∧ t.error = s.error ∧
  t.searchHistory = s.searchHistory

/-- The fields that no line of `fetchWeather` sets are the same in `s` and
`t`: `city`, `suggestions` and `searchLoading`. -/
def keepsSuggestionFields (s t : AppState) : Prop :=
  t.city = s.city ∧ t.suggestions = s.suggestions ∧ t.searchLoading = s.searchLoading


/-- The response awaited by the call at position `i` arrives, then
`fetchWeather(cityName)` is called. -/
def responseThenSubmission (c : Controller) (i : Nat) (r : Response GeocodingData)
    (cityName : String) : Controller :=
  Controller.callFetchWeather cityName (c.step (Event.geocodingArrives i r))

/-- The same two steps in the other order. -/
def submissionThenResponse (c : Controller) (i : Nat) (r : Response GeocodingData)
    (cityName : String) : Controller :=
  (Controller.callFetchWeather cityName c).step (Event.geocodingArrives i r)

/-- The component after `Paris` was typed: one suggestion call in flight. -/
def typedParis : Controller :=
  Controller.initial.step (Event.cityChange "Paris")

/-! ## Shared lemmas -/

theorem getElem?_append_pair_snd {α : Type} (l : List α) (a b : α) :
    (l ++ [a, b])[l.length + 1]? = some b := by
  induction l with
  | nil => rfl
  | cons x xs ih => simpa using ih

theorem eraseIdx_append_pair_snd {α : Type} (l : List α) (a b : α) :
    (l ++ [a, b]).eraseIdx (l.length + 1) = l ++ [a] := by
  induction l with
  | nil => rfl
  | cons x xs ih => simpa using ih

theorem getElem?_append_single {α : Type} (l : List α) (a : α) :
    (l ++ [a])[l.length]? = some a := by
  induction l with
  | nil => rfl
  | cons x xs ih => simp

theorem eraseIdx_append_single {α : Type} (l : List α) (a : α) :
    (l ++ [a]).eraseIdx l.length = l := by
  induction l with
  | nil => rfl
  | cons x xs ih => simp [ih]

theorem fetchSuggestions_resume_suggestions (r : Response GeocodingData) (s : AppState) :
    (fetchSuggestions_resume r s).suggestions = suggestionsOf r := by
  unfold fetchSuggestions_resume suggestionsOf
  rcases r with _ | ⟨_ | _ | _⟩ <;> rfl

theorem fetchSuggestions_resume_showSuggestions (r : Response GeocodingData) (s : AppState) :
    (fetchSuggestions_resume r s).showSuggestions = !(suggestionsOf r).isEmpty := by
  unfold fetchSuggestions_resume suggestionsOf
  rcases r with _ | ⟨_ | _ | _⟩ <;> rfl

theorem fetchSuggestions_resume_city (r : Response GeocodingData) (s : AppState) :
    (fetchSuggestions_resume r s).city = s.city := by
  unfold fetchSuggestions_resume
  rcases r with _ | ⟨_ | _ | _⟩ <;> rfl

theorem step_cityChange (c : Controller) (q : String) (h : 2 ≤ jsLength q) :
    c.step (Event.cityChange q) =
      { app := { c.app with city := q, searchLoading := true },
        pending := c.pending ++ [Pending.suggestions q],
        requests := c.requests ++ [Request.geocoding q 5] } := by
  have h' : ¬ jsLength q < 2 := by omega
  simp [Controller.step, Controller.callFetchSuggestions, fetchSuggestions_start, h']

theorem step_suggestionsArrive (c : Controller) (i : Nat) (q : String)
    (r : Response GeocodingData) (h : c.pending[i]? = some (Pending.suggestions q)) :
    c.step (Event.geocodingArrives i r) =
      { c with app := fetchSuggestions_resume r c.app, pending := c.pending.eraseIdx i } := by
  simp only [Controller.step, h]

/-! ## C1: stale suggestion responses -/

/-- C1, as stated, fails: with `Lon` typed before `London` and the response
for `London` arriving first, the list left after both responses is not the
one built from the response for `London`. -/
theorem late_response_not_discarded :
    (lateFirstResponse Controller.initial "Lon" "London"
        (.ok { results := some [lonavla] }) (.ok { results := some [london] })).app.suggestions
      ≠ suggestionsOf (.ok { results := some [london] }) := by
  intro h
  have h2 := congrArg (List.map Place.name) h
  revert h2
  decide

/-- C1, amended: for queries `q1`, `q2` of at least 2 characters, with
`fetchSuggestions(q1)` issued before `fetchSuggestions(q2)` and the response
for `q2` arriving before the one for `q1`, the suggestion list after both
responses is the one built from the response that arrived last, the one for
`q1`; it is shown exactly when it is non-empty, while the query text is `q2`
and both calls have ended. -/
theorem late_response_replaces_suggestions (c : Controller) (q1 q2 : String)
    (r1 r2 : Response GeocodingData) (h1 : 2 ≤ jsLength q1) (h2 : 2 ≤ jsLength q2) :
    (lateFirstResponse c q1 q2 r1 r2).app.suggestions = suggestionsOf r1 ∧
    (lateFirstResponse c q1 q2 r1 r2).app.showSuggestions = !(suggestionsOf r1).isEmpty ∧
    (lateFirstResponse c q1 q2 r1 r2).app.city = q2 ∧
    (lateFirstResponse c q1 q2 r1 r2).pending = c.pending := by
  simp only [lateFirstResponse, Controller.run, List.foldl_cons, List.foldl_nil]
  rw [step_cityChange c q1 h1, step_cityChange _ q2 h2]
  rw [step_suggestionsArrive _ _ q2 r2 (by simpa using getElem?_append_pair_snd c.pending _ _)]
  rw [step_suggestionsArrive _ _ q1 r1
    (by simpa using (eraseIdx_append_pair_snd c.pending _ _).symm ▸ getElem?_append_single c.pending _)]
  simp [eraseIdx_append_pair_snd, eraseIdx_append_single, fetchSuggestions_resume_suggestions,
    fetchSuggestions_resume_showSuggestions, fetchSuggestions_resume_city]

/-- Witness of C1 amended at `Lon`, `London`: the list left is the one of the
late response for `Lon`. -/
theorem late_response_replaces_suggestions_witness :
    2 ≤ jsLength "Lon" ∧ 2 ≤ jsLength "London" ∧
    (lateFirstResponse Controller.initial "Lon" "London"
        (.ok { results := some [lonavla] }) (.ok { results := some [london] })).app.suggestions
      = [lonavla] :=
  ⟨by decide, by decide,
   (late_response_replaces_suggestions Controller.initial "Lon" "London"
      (.ok { results := some [lonavla] }) (.ok { results := some [london] })
      (by decide) (by decide)).1⟩

/-! ## C2: forecast and error message together -/

/-- C2 at the failing input: after the overlapping lookups the forecast of
Paris is stored while the error message left by the lookup of `Zzxyqq` is
still there, with the loading flag off and no call left in flight. -/
theorem overlapping_lookups_leave_forecast_and_error :
    (Controller.initial.run overlappingLookups).app.weather.isSome = true ∧
    (Controller.initial.run overlappingLookups).app.error = cityNotFoundMessage ∧
    cityNotFoundMessage ≠ "" ∧
    (Controller.initial.run overlappingLookups).app.loading = false ∧
    (Controller.initial.run overlappingLookups).pending = [] ∧
    (Controller.initial.run overlappingLookups).requests =
      [Request.geocoding "Zzxyqq" 5, Request.geocoding "Zzxyqq" 1, Request.geocoding "Paris" 5,
       Request.geocoding "Paris, FR" 1, Request.forecast paris.latitude paris.longitude] := by
  refine ⟨rfl, rfl, by decide, rfl, rfl, rfl⟩

/-- One whole call of `fetchWeather`, run to its end before anything else
happens, never leaves a forecast next to a non-empty error message. -/
theorem fetchWeather_alone_excludes (cityName : String) (g : Response GeocodingData)
    (w : Response WeatherData) (s : AppState)
    (h : s.weather.isSome = true → s.error = "") :
    (fetchWeather cityName g w s).1.weather.isSome = true →
      (fetchWeather cityName g w s).1.error = "" := by
  unfold fetchWeather fetchWeather_start
  by_cases hb : isBlank cityName = true
  · simpa [hb] using h
  · simp only [hb, Bool.false_eq_true, if_false]
    unfold fetchWeather_afterGeocoding
    rcases g with m | ⟨_ | _ | ⟨p, ps⟩⟩ <;> simp [fetchWeather_catch]
    unfold fetchWeather_afterForecast
    rcases w with m | wd
    · simp [fetchWeather_catch]
    · by_cases he : wd.error = true <;> simp [he, fetchWeather_catch]

/-! ## The recent-search list -/

theorem addToSearchHistory_eq (c : String) (h : List String) :
    addToSearchHistory c h = c :: (h.filter (fun item => item != c)).take 4 := by
  simp [addToSearchHistory]

theorem addToSearchHistory_length_le (c : String) (h : List String) :
    (addToSearchHistory c h).length ≤ 5 := by
  simp [addToSearchHistory]

theorem addToSearchHistory_nodup (c : String) (h : List String) (hn : h.Nodup) :
    (addToSearchHistory c h).Nodup := by
  rw [addToSearchHistory_eq]
  refine List.nodup_cons.mpr ⟨?_, (hn.filter _).sublist (List.take_sublist _ _)⟩
  intro hmem
  have := List.mem_of_mem_take hmem
  simp at this

/-- A successful lookup pushes its city on the recent-search list. -/
theorem fetchWeather_succeeds_searchHistory (l : Lookup) (s : AppState)
    (h : l.succeeds = true) :
    (fetchWeather l.cityName l.geocodingResponse l.forecastResponse s).1.searchHistory =
      addToSearchHistory l.cityName s.searchHistory := by
  obtain ⟨c, g, w⟩ := l
  simp only [Lookup.succeeds, Bool.and_eq_true, Bool.not_eq_true'] at h
  obtain ⟨⟨hb, hg⟩, hw⟩ := h
  unfold fetchWeather fetchWeather_start
  simp only [hb, Bool.false_eq_true, if_false]
  rcases g with m | ⟨_ | _ | ⟨p, ps⟩⟩ <;> simp [hasMatch] at hg
  rcases w with m | wd <;> simp [hasForecast] at hw
  simp [fetchWeather_afterGeocoding, fetchWeather_afterForecast, hw]

/-- Any lookup either leaves the recent-search list alone or pushes its city. -/
theorem fetchWeather_searchHistory_cases (c : String) (g : Response GeocodingData)
    (w : Response WeatherData) (s : AppState) :
    (fetchWeather c g w s).1.searchHistory = s.searchHistory ∨
    (fetchWeather c g w s).1.searchHistory = addToSearchHistory c s.searchHistory := by
  unfold fetchWeather fetchWeather_start
  by_cases hb : isBlank c = true
  · simp [hb]
  · simp only [hb, Bool.false_eq_true, if_false]
    rcases g with m | ⟨_ | _ | ⟨p, ps⟩⟩ <;>
      simp [fetchWeather_afterGeocoding, fetchWeather_catch]
    rcases w with m | wd
    · simp [fetchWeather_afterForecast, fetchWeather_catch]
    · by_cases he : wd.error = true <;>
        simp [fetchWeather_afterForecast, fetchWeather_catch, he]

theorem runLookups_append (s : AppState) (ls : List Lookup) (l : Lookup) :
    runLookups s (ls ++ [l]) =
      (fetchWeather l.cityName l.geocodingResponse l.forecastResponse (runLookups s ls)).1 := by
  simp [runLookups, List.foldl_append]

theorem take_four_take_five_append {α : Type} (a t : List α) :
    ((a.take 5) ++ t).take 4 = (a ++ t).take 4 := by
  by_cases h : a.length ≤ 5
  · rw [List.take_of_length_le h]
  · have h4 : 4 ≤ a.length := by omega
    have h4' : 4 ≤ (a.take 5).length := by simp; omega
    rw [List.take_append_of_le_length h4, List.take_append_of_le_length h4', List.take_take]
    simp

/-- After successful lookups of pairwise distinct cities the recent-search
list starts with these cities, latest first, up to 5 of them. -/
theorem runLookups_searchHistory_shape (s : AppState) (ls : List Lookup)
    (hs : ∀ l ∈ ls, l.succeeds = true) (hd : (ls.map Lookup.cityName).Nodup) :
    ((ls.map Lookup.cityName).reverse.take 5) <+: (runLookups s ls).searchHistory := by
  induction ls using List.reverseRecOn with
  | nil => simp
  | append_singleton ls l ih =>
    have hs' : ∀ x ∈ ls, x.succeeds = true := fun x hx => hs x (by simp [hx])
    have hl : l.succeeds = true := hs l (by simp)
    rw [List.map_append, List.nodup_append] at hd
    obtain ⟨hd1, -, hdis⟩ := hd
    obtain ⟨t, ht⟩ := ih hs' hd1
    have hfil : ((ls.map Lookup.cityName).reverse.take 5).filter
        (fun item => item != l.cityName) = (ls.map Lookup.cityName).reverse.take 5 := by
      rw [List.filter_eq_self]
      intro a ha
      have ha' : a ∈ ls.map Lookup.cityName := by
        have := List.mem_of_mem_take ha
        simpa using this
      have hne : a ≠ l.cityName := fun e => hdis ha' (by simp [e])
      simpa using hne
    rw [runLookups_append, fetchWeather_succeeds_searchHistory l _ hl, addToSearchHistory_eq,
      ← ht, List.filter_append, hfil, take_four_take_five_append, List.take_append_eq_append_take]
    simp only [List.map_append, List.map_cons, List.map_nil, List.reverse_append,
      List.reverse_cons, List.reverse_nil, List.nil_append, List.singleton_append,
      List.take_succ_cons]
    exact ⟨_, rfl⟩

theorem not_mem_take_filter_ne (c : String) (h : List String) (n : Nat) :
    c ∉ (h.filter (fun item => item != c)).take n := by
  intro hmem
  have := List.mem_of_mem_take hmem
  simp at this

theorem runLookups_searchHistory_inv (s : AppState) (ls : List Lookup)
    (hn : s.searchHistory.Nodup) (hl : s.searchHistory.length ≤ 5) :
    (runLookups s ls).searchHistory.Nodup ∧ (runLookups s ls).searchHistory.length ≤ 5 := by
  induction ls using List.reverseRecOn with
  | nil => exact ⟨hn, hl⟩
  | append_singleton ls l ih =>
    rw [runLookups_append]
    rcases fetchWeather_searchHistory_cases l.cityName l.geocodingResponse l.forecastResponse
      (runLookups s ls) with h | h
    · rw [h]; exact ih
    · rw [h]
      exact ⟨addToSearchHistory_nodup _ _ ih.1, addToSearchHistory_length_le _ _⟩

/-! ## C3: the cap of the recent-search list -/

/-- C3: for every starting state and every sequence of at least 5 successful
lookups of pairwise distinct cities, run in order, the recent-search list
afterwards is exactly the last 5 cities, latest first, and has length 5. -/
theorem recent_searches_are_last_five (s : AppState) (ls : List Lookup)
    (hs : ∀ l ∈ ls, l.succeeds = true) (hd : (ls.map Lookup.cityName).Nodup)
    (hn : 5 ≤ ls.length) :
    (runLookups s ls).searchHistory = (ls.map Lookup.cityName).reverse.take 5 ∧
    (runLookups s ls).searchHistory.length = 5 := by
  have hpre := runLookups_searchHistory_shape s ls hs hd
  have hlen5 : ((ls.map Lookup.cityName).reverse.take 5).length = 5 := by simp; omega
  have hle : (runLookups s ls).searchHistory.length ≤ 5 := by
    rcases List.eq_nil_or_concat ls with h | ⟨ls', l, h⟩
    · subst h; simp at hn
    · subst h
      rw [List.concat_eq_append, runLookups_append,
        fetchWeather_succeeds_searchHistory l _ (hs l (by simp))]
      exact addToSearchHistory_length_le _ _
  have hlen : ((ls.map Lookup.cityName).reverse.take 5).length =
      (runLookups s ls).searchHistory.length := by
    have := hpre.length_le
    omega
  have heq := hpre.eq_of_length hlen
  exact ⟨heq.symm, by rw [← hlen, hlen5]⟩

/-- Witness of C3: six distinct successful submissions from the empty list. -/
theorem recent_searches_are_last_five_witness :
    (runLookups AppState.initial sixLookups).searchHistory
      = ["Tokyo", "Rome", "Oslo", "Lima", "Cairo"] ∧
    (runLookups AppState.initial sixLookups).searchHistory.length = 5 :=
  recent_searches_are_last_five AppState.initial sixLookups (by decide) (by decide) (by decide)

/-! ## C4: at most 5 entries, no duplicates -/

/-- C4: starting from a state with the empty recent-search list, after any
sequence of lookups run in order (successful or not, any city strings), the
list has at most 5 entries and no two entries are equal. -/
theorem recent_searches_capped_and_distinct (s : AppState) (ls : List Lookup)
    (h0 : s.searchHistory = []) :
    (runLookups s ls).searchHistory.length ≤ 5 ∧ (runLookups s ls).searchHistory.Nodup := by
  have h := runLookups_searchHistory_inv s ls (by simp [h0]) (by simp [h0])
  exact ⟨h.2, h.1⟩

/-- Witness of C4: the same city looked up again among others. -/
theorem recent_searches_capped_and_distinct_witness :
    AppState.initial.searchHistory = [] ∧
    (runLookups AppState.initial
      (sixLookups ++ [okLookup "Lima", okLookup "Lima"])).searchHistory.length ≤ 5 ∧
    (runLookups AppState.initial
      (sixLookups ++ [okLookup "Lima", okLookup "Lima"])).searchHistory.Nodup :=
  ⟨rfl, recent_searches_capped_and_distinct AppState.initial
    (sixLookups ++ [okLookup "Lima", okLookup "Lima"]) rfl⟩

/-! ## C5: idempotence and move to front -/

/-- C5: for every list `h` and city `c`, the recent-search update for `c`
applied twice gives the same list as applied once, and in that list `c`
occurs exactly once, at index 0. -/
theorem addToSearchHistory_idempotent (c : String) (h : List String) :
    addToSearchHistory c (addToSearchHistory c h) = addToSearchHistory c h ∧
    (addToSearchHistory c h).count c = 1 ∧
    (addToSearchHistory c h)[0]? = some c := by
  have hnot := not_mem_take_filter_ne c h 4
  refine ⟨?_, ?_, ?_⟩
  · rw [addToSearchHistory_eq c h, addToSearchHistory_eq]
    have hf : (c :: (h.filter (fun item => item != c)).take 4).filter (fun item => item != c)
        = (h.filter (fun item => item != c)).take 4 := by
      rw [List.filter_cons_of_neg (by simp), List.filter_eq_self]
      intro a ha
      have hne : a ≠ c := fun e => hnot (e ▸ ha)
      simpa using hne
    rw [hf, List.take_take]
    simp
  · rw [addToSearchHistory_eq, List.count_cons_self, List.count_eq_zero_of_not_mem hnot]
  · simp [addToSearchHistory_eq]

/-! ## C6: failed lookups leave the recent-search list alone -/

/-- C6: for every city string and every lookup that fails (the geocoder has
no match or its request throws, the forecast body carries the error
indicator or its request throws) and for every blank submission, the
recent-search list after `fetchWeather` equals the list before it. -/
theorem failed_lookup_keeps_searchHistory (cityName : String) (g : Response GeocodingData)
    (w : Response WeatherData) (s : AppState)
    (h : isBlank cityName = true ∨ hasMatch g = false ∨ hasForecast w = false) :
    (fetchWeather cityName g w s).1.searchHistory = s.searchHistory := by
  unfold fetchWeather fetchWeather_start
  by_cases hb : isBlank cityName = true
  · simp [hb]
  · simp only [hb, Bool.false_eq_true, if_false]
    rcases g with m | ⟨_ | _ | ⟨p, ps⟩⟩ <;>
      simp [fetchWeather_afterGeocoding, fetchWeather_catch]
    rcases w with m | wd
    · simp [fetchWeather_afterForecast, fetchWeather_catch]
    · have he : wd.error = true := by
        rcases h with h | h | h
        · exact absurd h hb
        · simp [hasMatch] at h
        · simpa [hasForecast] using h
      simp [fetchWeather_afterForecast, fetchWeather_catch, he]

/-- Witness of C6: a provider error after a successful geocoding. -/
theorem failed_lookup_keeps_searchHistory_witness :
    (fetchWeather "Paris" (.ok { results := some [paris] })
      (.ok { parisForecast with error := true, reason := some "Out of range" })
      (runLookups AppState.initial sixLookups)).1.searchHistory
      = (runLookups AppState.initial sixLookups).searchHistory :=
  failed_lookup_keeps_searchHistory "Paris" _ _ _ (Or.inr (Or.inr rfl))

/-! ## C7: city not found -/

/-- C7: for every non-blank city for which the geocoder returns zero matches
(`results` missing or empty), `fetchWeather` sends the geocoding request and
no forecast request, and ends with the error message of line 57, the
forecast absent and loading false. -/
theorem no_match_gives_city_not_found (cityName : String) (g : Response GeocodingData)
    (w : Response WeatherData) (s : AppState) (hb : isBlank cityName = false)
    (hz : g = .ok { results := none } ∨ g = .ok { results := some [] }) :
    (fetchWeather cityName g w s).2 = [Request.geocoding cityName 1] ∧
    (fetchWeather cityName g w s).1.error =
      "City not found. Please check the spelling and try again." ∧
    (fetchWeather cityName g w s).1.weather = none ∧
    (fetchWeather cityName g w s).1.loading = false := by
  rcases hz with hz | hz <;> subst hz <;>
    simp [fetchWeather, fetchWeather_start, hb, fetchWeather_afterGeocoding,
      fetchWeather_catch, cityNotFoundMessage]

/-- Witness of C7 at `Zzxyqq`, on a state that shows a forecast. -/
theorem no_match_gives_city_not_found_witness :
    isBlank "Zzxyqq" = false ∧
    (fetchWeather "Zzxyqq" (.ok { results := none }) (.ok parisForecast)
      (runLookups AppState.initial sixLookups)).2 = [Request.geocoding "Zzxyqq" 1] ∧
    (fetchWeather "Zzxyqq" (.ok { results := none }) (.ok parisForecast)
      (runLookups AppState.initial sixLookups)).1.error =
      "City not found. Please check the spelling and try again." ∧
    (fetchWeather "Zzxyqq" (.ok { results := none }) (.ok parisForecast)
      (runLookups AppState.initial sixLookups)).1.weather = none ∧
    (fetchWeather "Zzxyqq" (.ok { results := none }) (.ok parisForecast)
      (runLookups AppState.initial sixLookups)).1.loading = false :=
  ⟨by decide, no_match_gives_city_not_found "Zzxyqq" _ _ _ (by decide) (Or.inl rfl)⟩

/-! ## C8: provider errors -/

/-- C8: for every lookup whose forecast body carries the error indicator,
`fetchWeather` ends with the forecast absent; the error message is the
reason text of the provider when a (non-empty) reason is given, and the
generic fallback when none is given (`reason` missing or the empty text). -/
theorem provider_error_message (cityName : String) (first : Place) (others : List Place)
    (wd : WeatherData) (s : AppState) (hb : isBlank cityName = false)
    (he : wd.error = true) :
    (fetchWeather cityName (.ok { results := some (first :: others) }) (.ok wd) s).1.weather
      = none ∧
    (∀ r, wd.reason = some r → r ≠ "" →
      (fetchWeather cityName (.ok { results := some (first :: others) }) (.ok wd) s).1.error
        = r) ∧
    (wd.reason = none ∨ wd.reason = some "" →
      (fetchWeather cityName (.ok { results := some (first :: others) }) (.ok wd) s).1.error
        = "Failed to fetch weather data") := by
  have hrun : (fetchWeather cityName (.ok { results := some (first :: others) }) (.ok wd) s).1
      = fetchWeather_catch (reasonOrGeneric wd.reason)
          { s with loading := true, error := "", showSuggestions := false } := by
    simp [fetchWeather, fetchWeather_start, hb, fetchWeather_afterGeocoding,
      fetchWeather_afterForecast, he]
  rw [hrun]
  refine ⟨rfl, ?_, ?_⟩
  · intro r hr hne
    simp [fetchWeather_catch, reasonOrGeneric, hr, hne]
  · intro hr
    rcases hr with hr | hr <;>
      simp [fetchWeather_catch, reasonOrGeneric, hr, genericFailureMessage]

/-- Witness of C8: a provider error with a reason, on a state that shows a
forecast. -/
theorem provider_error_message_witness :
    (fetchWeather "Paris" (.ok { results := some [paris] })
      (.ok { parisForecast with error := true, reason := some "Latitude out of range" })
      (runLookups AppState.initial sixLookups)).1.weather = none ∧
    (fetchWeather "Paris" (.ok { results := some [paris] })
      (.ok { parisForecast with error := true, reason := some "Latitude out of range" })
      (runLookups AppState.initial sixLookups)).1.error = "Latitude out of range" :=
  have h := provider_error_message "Paris" paris []
    { parisForecast with error := true, reason := some "Latitude out of range" }
    (runLookups AppState.initial sixLookups) (by decide) rfl
  ⟨h.1, h.2.1 "Latitude out of range" rfl (by decide)⟩

/-! ## C9: transport failures -/

/-- C9, as stated, fails: a geocoding request that throws with the message
`Failed to fetch` leaves that message, not the generic message that a
provider error without reason leaves for the same city. -/
theorem transport_failure_not_generic :
    (fetchWeather "Paris" (.error "Failed to fetch") (.ok parisForecast)
      AppState.initial).1.error ≠
    (fetchWeather "Paris" (.ok { results := some [paris] })
      (.ok { parisForecast with error := true, reason := none }) AppState.initial).1.error := by
  decide

/-- C9, amended: for every non-blank city and every transport failure of
either request, the error message `fetchWeather` leaves is the message the
thrown error carries, the forecast is absent and loading is false; a failed
geocoding request is not followed by a forecast request. -/
theorem transport_failure_message (cityName : String) (message : String) (first : Place)
    (others : List Place) (w : Response WeatherData) (s : AppState)
    (hb : isBlank cityName = false) :
    ((fetchWeather cityName (.error message) w s).1.error = message ∧
      (fetchWeather cityName (.error message) w s).1.weather = none ∧
      (fetchWeather cityName (.error message) w s).1.loading = false ∧
      (fetchWeather cityName (.error message) w s).2 = [Request.geocoding cityName 1]) ∧
    ((fetchWeather cityName (.ok { results := some (first :: others) })
        (.error message) s).1.error = message ∧
      (fetchWeather cityName (.ok { results := some (first :: others) })
        (.error message) s).1.weather = none ∧
      (fetchWeather cityName (.ok { results := some (first :: others) })
        (.error message) s).1.loading = false) := by
  simp [fetchWeather, fetchWeather_start, hb, fetchWeather_afterGeocoding,
    fetchWeather_afterForecast, fetchWeather_catch]

/-- Witness of C9 amended: the forecast request throws `Failed to fetch`. -/
theorem transport_failure_message_witness :
    isBlank "Paris" = false ∧
    (fetchWeather "Paris" (.ok { results := some [paris] }) (.error "Failed to fetch")
      AppState.initial).1.error = "Failed to fetch" :=
  ⟨by decide,
   (transport_failure_message "Paris" "Failed to fetch" paris [] (.ok parisForecast)
      AppState.initial (by decide)).2.1⟩

/-! ## C10: the stored forecast -/

/-- C10: for every non-blank city, every non-empty geocoder result list and
every forecast body without error indicator, `fetchWeather` sends both
requests, the second for the coordinates of the first match, and stores a
forecast whose location is name, country, latitude and longitude of the
first match only, whose hourly block is the one of the body, and whose seven
current-conditions fields are those of the current block of the body; when
that weather code is 2, `getWeatherDescription` of the stored code is
`Partly cloudy`. -/
theorem success_stores_merged_forecast (cityName : String) (first : Place)
    (others : List Place) (wd : WeatherData) (s : AppState)
    (hb : isBlank cityName = false) (he : wd.error = false) :
    (fetchWeather cityName (.ok { results := some (first :: others) }) (.ok wd) s).2 =
      [Request.geocoding cityName 1, Request.forecast first.latitude first.longitude] ∧
    ∃ stored : Weather,
      (fetchWeather cityName (.ok { results := some (first :: others) }) (.ok wd) s).1.weather
        = some stored ∧
      stored.location = { name := first.name, country := first.country,
                          latitude := first.latitude, longitude := first.longitude } ∧
      stored.hourly = wd.hourly ∧
      stored.temperature_2m = wd.current.temperature_2m ∧
      stored.relative_humidity_2m = wd.current.relative_humidity_2m ∧
      stored.apparent_temperature = wd.current.apparent_temperature ∧
      stored.precipitation = wd.current.precipitation ∧
      stored.weather_code = wd.current.weather_code ∧
      stored.wind_speed_10m = wd.current.wind_speed_10m ∧
      stored.wind_direction_10m = wd.current.wind_direction_10m ∧
      (wd.current.weather_code = 2 →
        getWeatherDescription stored.weather_code = "Partly cloudy") := by
  refine ⟨?_, buildWeather first wd, ?_, rfl, rfl, rfl, rfl, rfl, rfl, rfl, rfl, rfl, ?_⟩
  · simp [fetchWeather, fetchWeather_start, hb, fetchWeather_afterGeocoding,
      fetchWeather_afterForecast, he]
  · simp [fetchWeather, fetchWeather_start, hb, fetchWeather_afterGeocoding,
      fetchWeather_afterForecast, he]
  · intro h2
    show getWeatherDescription wd.current.weather_code = "Partly cloudy"
    rw [h2]
    decide

/-- Witness of C10: `Paris` with the geocoder answering Paris, FR first and
the provider answering weather code 2; the stored forecast names Paris, FR
and its weather code is described as `Partly cloudy`. -/
theorem success_stores_merged_forecast_witness :
    isBlank "Paris" = false ∧
    ∃ stored : Weather,
      (fetchWeather "Paris" (.ok { results := some [paris, lonavla] }) (.ok parisForecast)
        AppState.initial).1.weather = some stored ∧
      stored.location.name = "Paris" ∧ stored.location.country = "FR" ∧
      getWeatherDescription stored.weather_code = "Partly cloudy" := by
  refine ⟨by decide, ?_⟩
  obtain ⟨-, stored, hw, hloc, -, -, -, -, -, -, -, -, hdesc⟩ :=
    success_stores_merged_forecast "Paris" paris [lonavla] parisForecast AppState.initial
      (by decide) rfl
  exact ⟨stored, hw, by rw [hloc]; rfl, by rw [hloc]; rfl, hdesc rfl⟩

/-! ## C11: blank submissions -/

theorem isBlank_of_all_whiteSpace (cityName : String)
    (h : ∀ ch ∈ cityName.data, jsIsWhiteSpace ch = true) : isBlank cityName = true := by
  have hdrop : cityName.data.dropWhile jsIsWhiteSpace = [] :=
    List.dropWhile_eq_nil_iff.mpr h
  simp [isBlank, jsTrim, hdrop]

/-- C11: for every city string that is empty or made of whitespace only,
`fetchWeather` is a no-op: it sends no request and leaves every state field
as it was, and no call stays in flight. -/
theorem blank_submission_is_noop (cityName : String) (g : Response GeocodingData)
    (w : Response WeatherData) (s : AppState) (c : Controller)
    (h : ∀ ch ∈ cityName.data, jsIsWhiteSpace ch = true) :
    fetchWeather cityName g w s = (s, []) ∧ Controller.callFetchWeather cityName c = c := by
  have hb := isBlank_of_all_whiteSpace cityName h
  simp [fetchWeather, Controller.callFetchWeather, fetchWeather_start, hb]

/-- Witness of C11: blanks and a tab, on a state that shows a forecast. -/
theorem blank_submission_is_noop_witness :
    (∀ ch ∈ "  \t ".data, jsIsWhiteSpace ch = true) ∧
    fetchWeather "  \t " (.ok { results := some [paris] }) (.ok parisForecast)
      (runLookups AppState.initial sixLookups) = (runLookups AppState.initial sixLookups, []) ∧
    Controller.callFetchWeather "  \t " typedParis = typedParis :=
  ⟨by decide, blank_submission_is_noop "  \t " _ _ _ typedParis (by decide)⟩

/-! ## C12: short queries -/

/-- C12: for every query of fewer than 2 characters (`query.length`, UTF-16
code units), `fetchSuggestions` sends no request, leaves the suggestion list
empty and hidden and changes nothing else; no call stays in flight. -/
theorem short_query_sends_nothing (query : String) (r : Response GeocodingData)
    (s : AppState) (c : Controller) (h : jsLength query < 2) :
    fetchSuggestions query r s =
      ({ s with suggestions := [], showSuggestions := false }, []) ∧
    (Controller.callFetchSuggestions query c).requests = c.requests ∧
    (Controller.callFetchSuggestions query c).pending = c.pending ∧
    (Controller.callFetchSuggestions query c).app.suggestions = [] ∧
    (Controller.callFetchSuggestions query c).app.showSuggestions = false := by
  simp [fetchSuggestions, Controller.callFetchSuggestions, fetchSuggestions_start, h]

/-- Witness of C12: one letter typed while suggestions are on display. -/
theorem short_query_sends_nothing_witness :
    jsLength "L" < 2 ∧
    (fetchSuggestions "L" (.ok { results := some [london] })
      { AppState.initial with suggestions := [london, lonavla], showSuggestions := true }).2
      = [] ∧
    (fetchSuggestions "L" (.ok { results := some [london] })
      { AppState.initial with suggestions := [london, lonavla], showSuggestions := true }).1
      = AppState.initial := by
  have h := (short_query_sends_nothing "L" (.ok { results := some [london] })
    { AppState.initial with suggestions := [london, lonavla], showSuggestions := true }
    Controller.initial (by decide)).1
  exact ⟨by decide, by rw [h], by rw [h]; rfl⟩

/-! ## C13: suggestion failures -/

/-- C13: for every query of at least 2 characters and every failure of the
geocoding request (a thrown error, or a body without `results`),
`fetchSuggestions` sends its one request and ends with the suggestion list
empty and hidden and the suggestion-loading flag false, while the forecast
error message, the forecast and the loading flag are as before the call. -/
theorem suggestion_failure_is_swallowed (query : String) (r : Response GeocodingData)
    (s : AppState) (h : 2 ≤ jsLength query)
    (hf : (∃ message, r = .error message) ∨ r = .ok { results := none }) :
    (fetchSuggestions query r s).2 = [Request.geocoding query 5] ∧
    (fetchSuggestions query r s).1.suggestions = [] ∧
    (fetchSuggestions query r s).1.showSuggestions = false ∧
    (fetchSuggestions query r s).1.searchLoading = false ∧
    (fetchSuggestions query r s).1.error = s.error ∧
    (fetchSuggestions query r s).1.weather = s.weather ∧
    (fetchSuggestions query r s).1.loading = s.loading := by
  have h' : ¬ jsLength query < 2 := by omega
  rcases hf with ⟨m, hm⟩ | hm <;> subst hm <;>
    simp [fetchSuggestions, fetchSuggestions_start, h', fetchSuggestions_resume]

/-- Witness of C13: the request for `Lon` throws while suggestions are on
display and an earlier forecast error is shown. -/
theorem suggestion_failure_is_swallowed_witness :
    2 ≤ jsLength "Lon" ∧
    (fetchSuggestions "Lon" (.error "Failed to fetch")
      { AppState.initial with suggestions := [london], showSuggestions := true,
                              error := cityNotFoundMessage }).1.suggestions = [] ∧
    (fetchSuggestions "Lon" (.error "Failed to fetch")
      { AppState.initial with suggestions := [london], showSuggestions := true,
                              error := cityNotFoundMessage }).1.showSuggestions = false ∧
    (fetchSuggestions "Lon" (.error "Failed to fetch")
      { AppState.initial with suggestions := [london], showSuggestions := true,
                              error := cityNotFoundMessage }).1.error = cityNotFoundMessage :=
  have h := suggestion_failure_is_swallowed "Lon" (.error "Failed to fetch")
    { AppState.initial with suggestions := [london], showSuggestions := true,
                            error := cityNotFoundMessage } (by decide) (Or.inl ⟨_, rfl⟩)
  ⟨by decide, h.2.1, h.2.2.1, h.2.2.2.2.1⟩

/-! ## C14: suggestion fetch against forecast fetch -/

theorem callFetchWeather_nonblank (cityName : String) (c : Controller)
    (hb : isBlank cityName = false) :
    Controller.callFetchWeather cityName c =
      { app := { c.app with loading := true, error := "", showSuggestions := false },
        pending := c.pending ++ [Pending.geocoding cityName],
        requests := c.requests ++ [Request.geocoding cityName 1] } := by
  simp [Controller.callFetchWeather, fetchWeather_start, hb]

theorem callFetchWeather_blank (cityName : String) (c : Controller)
    (hb : isBlank cityName = true) : Controller.callFetchWeather cityName c = c := by
  simp [Controller.callFetchWeather, fetchWeather_start, hb]

/-- C14, as stated, fails: with the suggestions for `Paris` awaited, the
response followed by a submission hides the suggestion list, while the
submission followed by the response shows it. -/
theorem suggestion_and_submission_do_not_commute :
    (responseThenSubmission typedParis 0
      (.ok { results := some [paris] }) "Paris").app.showSuggestions = false ∧
    (submissionThenResponse typedParis 0
      (.ok { results := some [paris] }) "Paris").app.showSuggestions = true ∧
    responseThenSubmission typedParis 0 (.ok { results := some [paris] }) "Paris" ≠
      submissionThenResponse typedParis 0 (.ok { results := some [paris] }) "Paris" := by
  refine ⟨rfl, rfl, ?_⟩
  intro h
  have h2 := congrArg (fun c => c.app.showSuggestions) h
  revert h2
  decide

theorem fetchSuggestions_start_keeps (q : String) (s : AppState) :
    keepsForecastFields s (fetchSuggestions_start q s).1 := by
  unfold fetchSuggestions_start keepsForecastFields
  split <;> simp

theorem fetchSuggestions_resume_keeps (g : Response GeocodingData) (s : AppState) :
    keepsForecastFields s (fetchSuggestions_resume g s) := by
  unfold fetchSuggestions_resume keepsForecastFields
  rcases g with _ | ⟨_ | _ | _⟩ <;> simp

theorem fetchSuggestions_keeps (q : String) (g : Response GeocodingData) (s : AppState) :
    keepsForecastFields s (fetchSuggestions q g s).1 := by
  by_cases hq : jsLength q < 2
  · simp [fetchSuggestions, fetchSuggestions_start, hq, keepsForecastFields]
  · have hk := fetchSuggestions_resume_keeps g { s with searchLoading := true }
    simpa [fetchSuggestions, fetchSuggestions_start, hq, keepsForecastFields] using hk

theorem fetchWeather_start_keeps (cityName : String) (s : AppState) :
    keepsSuggestionFields s (fetchWeather_start cityName s).1 := by
  unfold fetchWeather_start keepsSuggestionFields
  split <;> simp

theorem fetchWeather_afterGeocoding_keeps (g : Response GeocodingData) (s : AppState) :
    keepsSuggestionFields s (fetchWeather_afterGeocoding g s).1 ∧
    (fetchWeather_afterGeocoding g s).1.showSuggestions = s.showSuggestions := by
  unfold fetchWeather_afterGeocoding keepsSuggestionFields
  rcases g with _ | ⟨_ | _ | _⟩ <;> simp [fetchWeather_catch]

theorem fetchWeather_afterForecast_keeps (cityName : String) (place : Place)
    (w : Response WeatherData) (s : AppState) :
    keepsSuggestionFields s (fetchWeather_afterForecast cityName place w s) ∧
    (fetchWeather_afterForecast cityName place w s).showSuggestions = s.showSuggestions := by
  unfold fetchWeather_afterForecast keepsSuggestionFields
  rcases w with _ | wd
  · simp [fetchWeather_catch]
  · by_cases he : wd.error = true <;> simp [he, fetchWeather_catch]

theorem fetchWeather_keeps (cityName : String) (g : Response GeocodingData)
    (w : Response WeatherData) (s : AppState) :
    keepsSuggestionFields s (fetchWeather cityName g w s).1 := by
  unfold fetchWeather fetchWeather_start
  by_cases hb : isBlank cityName = true
  · simp [hb, keepsSuggestionFields]
  · simp only [hb, Bool.false_eq_true, if_false]
    have h1 := (fetchWeather_afterGeocoding_keeps g
      { s with loading := true, error := "", showSuggestions := false }).1
    rcases hg : fetchWeather_afterGeocoding g
      { s with loading := true, error := "", showSuggestions := false } with ⟨s2, _ | ⟨place, req⟩⟩
    · rw [hg] at h1
      simpa [keepsSuggestionFields] using h1
    · rw [hg] at h1
      have h2 := (fetchWeather_afterForecast_keeps cityName place w s2).1
      simp only [keepsSuggestionFields] at h1 h2 ⊢
      exact ⟨h2.1.trans h1.1, h2.2.1.trans h1.2.1, h2.2.2.trans h1.2.2⟩

theorem resume_afterGeocoding_comm (r g : Response GeocodingData) (s : AppState) :
    fetchWeather_afterGeocoding g (fetchSuggestions_resume r s) =
      (fetchSuggestions_resume r (fetchWeather_afterGeocoding g s).1,
        (fetchWeather_afterGeocoding g s).2) := by
  unfold fetchWeather_afterGeocoding fetchSuggestions_resume
  rcases g with _ | ⟨_ | _ | _⟩ <;> rcases r with _ | ⟨_ | _ | _⟩ <;> rfl

theorem resume_afterForecast_comm (r : Response GeocodingData) (cityName : String)
    (place : Place) (w : Response WeatherData) (s : AppState) :
    fetchWeather_afterForecast cityName place w (fetchSuggestions_resume r s) =
      fetchSuggestions_resume r (fetchWeather_afterForecast cityName place w s) := by
  unfold fetchWeather_afterForecast fetchSuggestions_resume
  rcases w with _ | wd
  · rcases r with _ | ⟨_ | _ | _⟩ <;> rfl
  · by_cases he : wd.error = true <;> simp only [he, if_true, Bool.false_eq_true, if_false] <;>
      rcases r with _ | ⟨_ | _ | _⟩ <;> rfl

theorem response_submission_orders (c : Controller) (i : Nat)
    (query : String) (r : Response GeocodingData) (cityName : String)
    (h : c.pending[i]? = some (Pending.suggestions query)) :
    (responseThenSubmission c i r cityName).pending =
      (submissionThenResponse c i r cityName).pending ∧
    (responseThenSubmission c i r cityName).requests =
      (submissionThenResponse c i r cityName).requests ∧
    (∀ b, { (responseThenSubmission c i r cityName).app with showSuggestions := b } =
      { (submissionThenResponse c i r cityName).app with showSuggestions := b }) ∧
    (isBlank cityName = false →
      (responseThenSubmission c i r cityName).app.showSuggestions = false ∧
      (submissionThenResponse c i r cityName).app.showSuggestions =
        !(suggestionsOf r).isEmpty) := by
  have hi : i < c.pending.length := by
    rcases Nat.lt_or_ge i c.pending.length with hlt | hge
    · exact hlt
    · rw [List.getElem?_eq_none hge] at h
      exact absurd h (by simp)
  unfold responseThenSubmission submissionThenResponse
  by_cases hb : isBlank cityName = true
  · rw [callFetchWeather_blank _ _ hb, callFetchWeather_blank _ _ hb]
    simp [hb]
  · have hb' : isBlank cityName = false := by simpa using hb
    have h2 : (c.pending ++ [Pending.geocoding cityName])[i]? =
        some (Pending.suggestions query) := by
      rw [List.getElem?_append_left hi]
      exact h
    rw [step_suggestionsArrive c i query r h, callFetchWeather_nonblank _ c hb',
      callFetchWeather_nonblank _ _ hb', step_suggestionsArrive _ i query r h2]
    refine ⟨?_, rfl, ?_, ?_⟩
    · simp [List.eraseIdx_append_of_lt_length hi]
    · intro b
      unfold fetchSuggestions_resume
      rcases r with _ | ⟨_ | _ | _⟩ <;> rfl
    · intro _
      exact ⟨rfl, by simp [fetchSuggestions_resume_showSuggestions]⟩

/-- C14, amended: `fetchSuggestions` and `fetchWeather` write one state
field in common, the visibility flag `showSuggestions`, and no other.  No
step of `fetchSuggestions` changes `city`, `weather`, `loading`, `error` or
`searchHistory`; no step of `fetchWeather` changes `city`, `suggestions` or
`searchLoading`; both change `showSuggestions` on some state.  For every
awaited suggestion response and every city, the response and the submission
applied in either order give controller states that agree on the calls in
flight, on the requests sent and on every state field except
`showSuggestions`; for a non-blank city that flag holds what was written
last: false after response then submission, and after submission then
response true exactly when the response has matches.  The two later steps of
`fetchWeather`, run when its responses arrive, leave `showSuggestions` alone
and commute with a suggestion response exactly. -/
theorem suggestion_and_submission_commute_up_to_visibility (c : Controller) (i : Nat)
    (query : String) (r : Response GeocodingData) (cityName : String)
    (h : c.pending[i]? = some (Pending.suggestions query)) :
    ((responseThenSubmission c i r cityName).pending =
        (submissionThenResponse c i r cityName).pending ∧
      (responseThenSubmission c i r cityName).requests =
        (submissionThenResponse c i r cityName).requests ∧
      (∀ b, { (responseThenSubmission c i r cityName).app with showSuggestions := b } =
        { (submissionThenResponse c i r cityName).app with showSuggestions := b }) ∧
      (isBlank cityName = false →
        (responseThenSubmission c i r cityName).app.showSuggestions = false ∧
        (submissionThenResponse c i r cityName).app.showSuggestions =
          !(suggestionsOf r).isEmpty)) ∧
    (∀ (q : String) (g : Response GeocodingData) (s : AppState),
      keepsForecastFields s (fetchSuggestions_start q s).1 ∧
      keepsForecastFields s (fetchSuggestions_resume g s) ∧
      keepsForecastFields s (fetchSuggestions q g s).1) ∧
    (∀ (city : String) (g : Response GeocodingData) (place : Place)
        (w : Response WeatherData) (s : AppState),
      keepsSuggestionFields s (fetchWeather_start city s).1 ∧
      keepsSuggestionFields s (fetchWeather_afterGeocoding g s).1 ∧
      keepsSuggestionFields s (fetchWeather_afterForecast city place w s) ∧
      keepsSuggestionFields s (fetchWeather city g w s).1) ∧
    (∃ (g : Response GeocodingData) (s : AppState),
      (fetchSuggestions_resume g s).showSuggestions ≠ s.showSuggestions) ∧
    (∃ (city : String) (s : AppState),
      (fetchWeather_start city s).1.showSuggestions ≠ s.showSuggestions) ∧
    (∀ (city : String) (g : Response GeocodingData) (place : Place)
        (w : Response WeatherData) (s : AppState),
      (fetchWeather_afterGeocoding g s).1.showSuggestions = s.showSuggestions ∧
      (fetchWeather_afterForecast city place w s).showSuggestions = s.showSuggestions ∧
      fetchWeather_afterGeocoding g (fetchSuggestions_resume r s) =
        (fetchSuggestions_resume r (fetchWeather_afterGeocoding g s).1,
          (fetchWeather_afterGeocoding g s).2) ∧
      fetchWeather_afterForecast city place w (fetchSuggestions_resume r s) =
        fetchSuggestions_resume r (fetchWeather_afterForecast city place w s)) := by
  refine ⟨response_submission_orders c i query r cityName h, ?_, ?_, ?_, ?_, ?_⟩
  · intro q g s
    exact ⟨fetchSuggestions_start_keeps q s, fetchSuggestions_resume_keeps g s,
      fetchSuggestions_keeps q g s⟩
  · intro city g place w s
    exact ⟨fetchWeather_start_keeps city s, (fetchWeather_afterGeocoding_keeps g s).1,
      (fetchWeather_afterForecast_keeps city place w s).1, fetchWeather_keeps city g w s⟩
  · exact ⟨.ok { results := some [paris] }, AppState.initial, by decide⟩
  · exact ⟨"Paris", { AppState.initial with showSuggestions := true }, by decide⟩
  · intro city g place w s
    exact ⟨(fetchWeather_afterGeocoding_keeps g s).2,
      (fetchWeather_afterForecast_keeps city place w s).2,
      resume_afterGeocoding_comm r g s, resume_afterForecast_comm r city place w s⟩

/-- Witness of C14 amended on the state after `Paris` was typed. -/
theorem suggestion_and_submission_commute_up_to_visibility_witness :
    typedParis.pending[0]? = some (Pending.suggestions "Paris") ∧
    (responseThenSubmission typedParis 0 (.ok { results := some [paris] }) "Paris").pending =
      (submissionThenResponse typedParis 0 (.ok { results := some [paris] }) "Paris").pending ∧
    (responseThenSubmission typedParis 0 (.ok { results := some [paris] }) "Paris").requests =
      (submissionThenResponse typedParis 0 (.ok { results := some [paris] }) "Paris").requests :=
  have h := suggestion_and_submission_commute_up_to_visibility typedParis 0 "Paris"
    (.ok { results := some [paris] }) "Paris" rfl
  ⟨rfl, h.1.1, h.1.2.1⟩

/-! ## Rounding and the compass table -/

theorem jsRound_le (x : JSNumber) : (jsRound x : ℚ) ≤ x + 1 / 2 :=
  Int.floor_le _

theorem lt_jsRound_add_one (x : JSNumber) : x + 1 / 2 < (jsRound x : ℚ) + 1 :=
  Int.lt_floor_add_one _

theorem jsRound_eq_iff (x : JSNumber) (k : Int) :
    jsRound x = k ↔ (k : ℚ) ≤ x + 1 / 2 ∧ x + 1 / 2 < k + 1 :=
  Int.floor_eq_iff

theorem degrees_div (degrees : JSNumber) : degrees / 22.5 = degrees * (2 / 45) := by
  rw [div_eq_mul_inv]
  congr 1
  norm_num

theorem jsRound_bounds (degrees : JSNumber) :
    (jsRound (degrees / 22.5) : ℚ) ≤ degrees * (2 / 45) + 1 / 2 ∧
    degrees * (2 / 45) + 1 / 2 < (jsRound (degrees / 22.5) : ℚ) + 1 := by
  have hle := jsRound_le (degrees / 22.5)
  have hlt := lt_jsRound_add_one (degrees / 22.5)
  have hx : degrees / 22.5 = degrees * (2 / 45) := degrees_div degrees
  constructor <;> linarith

theorem jsRound_nonneg (degrees : JSNumber) (h : -(45 / 4) ≤ degrees) :
    0 ≤ jsRound (degrees / 22.5) := by
  have hb := jsRound_bounds degrees
  have h1 : (-1 : ℚ) < (jsRound (degrees / 22.5) : ℚ) := by linarith [hb.2]
  have h2 : (-1 : Int) < jsRound (degrees / 22.5) := by exact_mod_cast h1
  omega

theorem jsIndex_ofNat {α : Type} (xs : List α) (n : Nat) : jsIndex xs (n : Int) = xs[n]? := by
  simp [jsIndex]

theorem jsRem_ofNat (a b : Nat) : jsRem (a : Int) (b : Int) = ((a % b : Nat) : Int) := by
  simp [jsRem, Int.tmod]

theorem getWindDirection_of_round (degrees : JSNumber) (k : Nat)
    (h : jsRound (degrees / 22.5) = (k : Int)) :
    getWindDirection degrees = directions[k % 16]? := by
  unfold getWindDirection
  rw [h]
  have hrem := jsRem_ofNat k 16
  simp only [Nat.cast_ofNat] at hrem
  rw [hrem, jsIndex_ofNat]

theorem getWindDirection_label_of_round (degrees : JSNumber) (k : Nat)
    (h : jsRound (degrees / 22.5) = (k : Int)) :
    ∃ label ∈ directions, getWindDirection degrees = some label := by
  have hlt : k % 16 < directions.length := by
    have hlen : directions.length = 16 := rfl
    omega
  refine ⟨directions[k % 16], List.getElem_mem _, ?_⟩
  rw [getWindDirection_of_round degrees k h, List.getElem?_eq_getElem hlt]

/-! ## C15: the compass label -/

/-- C15: for every degrees value with 0 ≤ degrees ≤ 360, `getWindDirection`
returns entry `round(degrees / 22.5) mod 16` of the table `directions`, where
`k = round(degrees / 22.5)` lies in 0..16 and `22.5 * k` is a bearing nearest
to `degrees` among all multiples of 22.5; from 348.75 up to 360 the result
is N.  In particular 0 gives N, 359 gives N and 180 gives S. -/
theorem getWindDirection_nearest_point (degrees : JSNumber) (h0 : 0 ≤ degrees)
    (h1 : degrees ≤ 360) :
    (∃ k : Nat, k ≤ 16 ∧ jsRound (degrees / 22.5) = (k : Int) ∧
      getWindDirection degrees = directions[k % 16]? ∧
      (∀ j : Int, |degrees - 22.5 * k| ≤ |degrees - 22.5 * j|)) ∧
    (348.75 ≤ degrees → getWindDirection degrees = some "N") ∧
    directions = ["N", "NNE", "NE", "ENE", "E", "ESE", "SE", "SSE",
                  "S", "SSW", "SW", "WSW", "W", "WNW", "NW", "NNW"] ∧
    getWindDirection 0 = some "N" ∧ getWindDirection 359 = some "N" ∧
    getWindDirection 180 = some "S" := by
  obtain ⟨hle, hlt⟩ := jsRound_bounds degrees
  have hk0 : 0 ≤ jsRound (degrees / 22.5) := jsRound_nonneg degrees (by linarith)
  obtain ⟨k, hk⟩ := Int.eq_ofNat_of_zero_le hk0
  rw [hk] at hle hlt
  have hle' : (k : ℚ) ≤ degrees * (2 / 45) + 1 / 2 := by exact_mod_cast hle
  have hlt' : degrees * (2 / 45) + 1 / 2 < (k : ℚ) + 1 := by exact_mod_cast hlt
  have hk16 : k ≤ 16 := by
    have h3 : (k : ℚ) < 17 := by linarith
    have h4 : k < 17 := by exact_mod_cast h3
    omega
  refine ⟨⟨k, hk16, hk, getWindDirection_of_round degrees k hk, ?_⟩, ?_, rfl, ?_, ?_, ?_⟩
  · intro j
    have hnear : |degrees - 22.5 * k| ≤ 45 / 4 := by
      rw [abs_le]
      constructor <;> norm_num <;> linarith
    rcases lt_trichotomy j (k : Int) with hj | hj | hj
    · have hj' : (j : ℚ) + 1 ≤ k := by exact_mod_cast hj
      have hfar : (45 / 4 : ℚ) ≤ degrees - 22.5 * j := by norm_num; linarith
      exact hnear.trans (hfar.trans (le_abs_self _))
    · subst hj; simp
    · have hj' : (k : ℚ) + 1 ≤ j := by exact_mod_cast hj
      have hfar : (45 / 4 : ℚ) ≤ -(degrees - 22.5 * j) := by norm_num; linarith
      exact hnear.trans (hfar.trans (neg_le_abs _))
  · intro h348
    have hk16' : k = 16 := by
      have h3 : (15 : ℚ) < k := by norm_num at h348; linarith
      have h4 : 15 < k := by exact_mod_cast h3
      omega
    rw [getWindDirection_of_round degrees k hk, hk16']
    rfl
  · rw [getWindDirection_of_round 0 0 (by rw [jsRound_eq_iff]; norm_num)]; rfl
  · rw [getWindDirection_of_round 359 16 (by rw [jsRound_eq_iff]; norm_num)]; rfl
  · rw [getWindDirection_of_round 180 8 (by rw [jsRound_eq_iff]; norm_num)]; rfl

/-- Witness of C15 at 350 degrees, in the part that wraps to N. -/
theorem getWindDirection_nearest_point_witness :
    (0 : JSNumber) ≤ 350 ∧ (350 : JSNumber) ≤ 360 ∧ getWindDirection 350 = some "N" :=
  ⟨by norm_num, by norm_num,
   (getWindDirection_nearest_point 350 (by norm_num) (by norm_num)).2.1 (by norm_num)⟩

/-! ## C16: the table lookup -/

/-- C16, as stated, fails: at -45 degrees the index is -2 and the lookup
gives `undefined`, not one of the 16 labels. -/
theorem getWindDirection_negative_undefined :
    jsRem (jsRound (-45 / 22.5)) 16 = -2 ∧ getWindDirection (-45) = none ∧
    ¬ ∃ label ∈ directions, getWindDirection (-45) = some label := by
  have h : jsRound (-45 / 22.5) = -2 := by rw [jsRound_eq_iff]; norm_num
  have hnone : getWindDirection (-45) = none := by
    unfold getWindDirection
    rw [h]
    rfl
  refine ⟨by rw [h]; rfl, hnone, ?_⟩
  rintro ⟨label, -, hl⟩
  rw [hnone] at hl
  exact absurd hl (by simp)

/-- C16, amended: for every finite degrees value of at least -11.25, values
above 360 included, `getWindDirection` returns one of the 16 compass labels:
the index is not negative and below 16. -/
theorem getWindDirection_defined (degrees : JSNumber) (h : -11.25 ≤ degrees) :
    ∃ label ∈ directions, getWindDirection degrees = some label := by
  have hk0 : 0 ≤ jsRound (degrees / 22.5) :=
    jsRound_nonneg degrees (by norm_num at h; linarith)
  obtain ⟨k, hk⟩ := Int.eq_ofNat_of_zero_le hk0
  exact getWindDirection_label_of_round degrees k hk

/-- Witness of C16 amended at 725 degrees, two turns and a little more. -/
theorem getWindDirection_defined_witness :
    (-11.25 : JSNumber) ≤ 725 ∧ ∃ label ∈ directions, getWindDirection 725 = some label :=
  ⟨by norm_num, getWindDirection_defined 725 (by norm_num)⟩

/-! ## C17: weather descriptions -/

theorem descriptions_keys :
    descriptions.map Prod.fst =
      [0, 1, 2, 3, 45, 48, 51, 53, 55, 61, 63, 65, 71, 73, 75, 77, 80, 81, 82, 85, 86, 95,
       96, 99] := rfl

theorem descriptions_no_unknown : ∀ p ∈ descriptions, p.2 ≠ "Unknown" := by
  decide

theorem descriptions_keys_nodup : (descriptions.map Prod.fst).Nodup := by
  rw [descriptions_keys]
  decide

theorem lookup_of_mem_nodup {β : Type} (l : List (JSNumber × β))
    (hn : (l.map Prod.fst).Nodup) (a : JSNumber) (b : β) (h : (a, b) ∈ l) :
    l.lookup a = some b := by
  induction l with
  | nil => simp at h
  | cons p rest ih =>
    obtain ⟨k, v⟩ := p
    rw [List.map_cons, List.nodup_cons] at hn
    rcases List.mem_cons.mp h with heq | hmem
    · cases heq
      simp
    · have hne : a ≠ k := by
        intro e
        subst e
        exact hn.1 (List.mem_map.mpr ⟨(a, b), hmem, rfl⟩)
      rw [List.lookup_cons, beq_false_of_ne hne]
      exact ih hn.2 hmem

theorem mem_of_lookup_eq_some {β : Type} (l : List (JSNumber × β)) (a : JSNumber) (b : β)
    (h : l.lookup a = some b) : (a, b) ∈ l := by
  obtain ⟨l₁, l₂, hl, -⟩ := List.lookup_eq_some_iff.mp h
  rw [hl]
  simp

/-- C17: for every weather code, `getWeatherDescription` returns `Unknown`
exactly when the code is not one of the 24 codes of its table, and the label
the table gives otherwise; code 0 gives `Clear sky` and 9999 gives
`Unknown`. -/
theorem getWeatherDescription_unknown_iff (weatherCode : JSNumber) :
    (getWeatherDescription weatherCode = "Unknown" ↔
      weatherCode ∉ ([0, 1, 2, 3, 45, 48, 51, 53, 55, 61, 63, 65, 71, 73, 75, 77, 80, 81, 82,
        85, 86, 95, 96, 99] : List JSNumber)) ∧
    (∀ label, (weatherCode, label) ∈ descriptions →
      getWeatherDescription weatherCode = label) ∧
    descriptions.length = 24 ∧
    getWeatherDescription 0 = "Clear sky" ∧ getWeatherDescription 9999 = "Unknown" := by
  refine ⟨?_, ?_, rfl, by decide, by decide⟩
  · rw [← descriptions_keys]
    unfold getWeatherDescription
    cases hl : descriptions.lookup weatherCode with
    | none =>
      have hnone := List.lookup_eq_none_iff.mp hl
      simp only [true_iff]
      intro hmem
      obtain ⟨p, hp, hpk⟩ := List.mem_map.mp hmem
      exact absurd (hnone p hp) (by simp [hpk])
    | some label =>
      have hmem := mem_of_lookup_eq_some _ _ _ hl
      have hne : label ≠ "Unknown" := descriptions_no_unknown _ hmem
      have hkey : weatherCode ∈ descriptions.map Prod.fst :=
        List.mem_map.mpr ⟨_, hmem, rfl⟩
      simp [hne, hkey]
  · intro label hmem
    unfold getWeatherDescription
    rw [lookup_of_mem_nodup _ descriptions_keys_nodup _ _ hmem]

/-! ## C18: the next hour -/

theorem scanHours_none (rt : DateRuntime) (h : Nat) (ps : List JSNumber) (ts : List String)
    (i0 : Nat) (hall : ∀ t ∈ ts, hourExceeds (rt.getHours t) h = false) :
    scanHours rt h ps ts i0 = none := by
  induction ts generalizing i0 with
  | nil => rfl
  | cons t rest ih =>
    have ht := hall t (by simp)
    simp only [scanHours, ht, Bool.false_eq_true, if_false]
    exact ih _ (fun x hx => hall x (by simp [hx]))

theorem scanHours_first (rt : DateRuntime) (h : Nat) (ps : List JSNumber) (ts : List String)
    (i0 i : Nat) (t : String) (hi : ts[i]? = some t)
    (ht : hourExceeds (rt.getHours t) h = true)
    (hbefore : ∀ j u, j < i → ts[j]? = some u → hourExceeds (rt.getHours u) h = false) :
    scanHours rt h ps ts i0 = some { probability := ps[i0 + i]?, time := rt.hourLabel t } := by
  induction ts generalizing i0 i with
  | nil => simp at hi
  | cons t0 rest ih =>
    cases i with
    | zero =>
      simp only [List.getElem?_cons_zero, Option.some.injEq] at hi
      subst hi
      simp [scanHours, ht]
    | succ n =>
      have h0 : hourExceeds (rt.getHours t0) h = false := hbefore 0 t0 (by omega) (by simp)
      simp only [scanHours, h0, Bool.false_eq_true, if_false]
      rw [ih (i0 + 1) n (by simpa using hi)
        (fun j u hj hu => hbefore (j + 1) u (by omega) (by simpa using hu))]
      have hidx : i0 + 1 + n = i0 + (n + 1) := by omega
      rw [hidx]

/-- C18: for every hourly block with both sequences present and non-empty,
every host `Date` and every current hour, the function returns the
probability at index `i` and the hour label of timestamp `i`, where `i` is
the least index whose timestamp has an hour of day above the current hour;
when no timestamp has one, it returns the probability and the label at
index 0. -/
theorem next_hour_is_first_later_hour (rt : DateRuntime) (currentHour : Nat)
    (ts : List String) (ps : List JSNumber) (hts : ts ≠ []) (hps : ps ≠ []) :
    (∀ (i : Nat) (t : String), ts[i]? = some t →
      hourExceeds (rt.getHours t) currentHour = true →
      (∀ (j : Nat) (u : String), j < i → ts[j]? = some u →
        hourExceeds (rt.getHours u) currentHour = false) →
      getNextHourPrecipitationProbability rt currentHour
        (some { time := some ts, precipitation_probability := some ps }) =
        some { probability := ps[i]?, time := rt.hourLabel t }) ∧
    ((∀ u ∈ ts, hourExceeds (rt.getHours u) currentHour = false) →
      ∃ t0 p0, ts[0]? = some t0 ∧ ps[0]? = some p0 ∧
        getNextHourPrecipitationProbability rt currentHour
          (some { time := some ts, precipitation_probability := some ps }) =
          some { probability := some p0, time := rt.hourLabel t0 }) := by
  constructor
  · intro i t hi ht hbefore
    simp [getNextHourPrecipitationProbability,
      scanHours_first rt currentHour ps ts 0 i t hi ht hbefore]
  · intro hall
    obtain ⟨t0, trest, rfl⟩ := List.exists_cons_of_ne_nil hts
    obtain ⟨p0, prest, rfl⟩ := List.exists_cons_of_ne_nil hps
    refine ⟨t0, p0, by simp, by simp, ?_⟩
    simp [getNextHourPrecipitationProbability, scanHours_none rt currentHour _ _ 0 hall]

/-- Witness of C18: four provider timestamps from midnight on; with current
hour 1 the entry of 2 AM is returned, with current hour 5 the first entry. -/
theorem next_hour_is_first_later_hour_witness :
    getNextHourPrecipitationProbability isoRuntime 1 (some sampleHourly) =
      some { probability := some 30, time := "2 AM" } ∧
    getNextHourPrecipitationProbability isoRuntime 5 (some sampleHourly) =
      some { probability := some 10, time := "12 AM" } := by
  constructor
  · exact (next_hour_is_first_later_hour isoRuntime 1
      ["2024-05-01T00:00", "2024-05-01T01:00", "2024-05-01T02:00", "2024-05-01T03:00"]
      [10, 20, 30, 40] (by simp) (by simp)).1 2 "2024-05-01T02:00" rfl (by decide)
      (by
        intro j u hj hu
        interval_cases j
        · cases hu; decide
        · cases hu; decide)
  · obtain ⟨t0, p0, ht0, hp0, hres⟩ := (next_hour_is_first_later_hour isoRuntime 5
      ["2024-05-01T00:00", "2024-05-01T01:00", "2024-05-01T02:00", "2024-05-01T03:00"]
      [10, 20, 30, 40] (by simp) (by simp)).2 (by decide)
    cases ht0
    cases hp0
    exact hres

/-! ## C19: the absent result -/

/-- C19, as stated, fails: an hourly block that is present but has no `time`
sequence gives `null`. -/
theorem next_hour_null_with_hourly_present :
    getNextHourPrecipitationProbability isoRuntime 5
      (some { time := none, precipitation_probability := some [10, 20] }) = none ∧
    (some { time := none, precipitation_probability := some [10, 20] } : Option Hourly)
      ≠ none :=
  ⟨rfl, by simp⟩

/-- C19, amended: the function returns `null` exactly when the hourly
argument is missing or one of its two sequences, `precipitation_probability`
or `time`, is missing; so a `null` result means one of the three is missing. -/
theorem next_hour_null_iff (rt : DateRuntime) (currentHour : Nat)
    (hourlyData : Option Hourly) :
    getNextHourPrecipitationProbability rt currentHour hourlyData = none ↔
      hourlyData = none ∨
      ∃ hd, hourlyData = some hd ∧
        (hd.precipitation_probability = none ∨ hd.time = none) := by
  unfold getNextHourPrecipitationProbability
  rcases hourlyData with _ | ⟨time, pp⟩
  · simp
  · rcases time with _ | ts <;> rcases pp with _ | ps <;> simp
    split <;> simp

/-! ## C20: the accent colour ladder -/

/-- C20: `getTemperatureAccentColor` is the threshold ladder with cut points
35, 30, 25, 20, 15, 10, 5, 0: for every temperature it returns the token of
the greatest cut point that is at most the temperature, and the
below-freezing token for every temperature under 0; the 9 tokens are
pairwise distinct; 30 gets the token of the 30 band and 29.9 the token of
the 25 band. -/
theorem accent_color_is_ladder (temperature : JSNumber) :
    (∀ cut token, (cut, token) ∈ accentLadder → cut ≤ temperature →
      (∀ p ∈ accentLadder, p.1 ≤ temperature → p.1 ≤ cut) →
      getTemperatureAccentColor temperature = token) ∧
    (temperature < 0 → getTemperatureAccentColor temperature = belowFreezingToken) ∧
    accentLadder.map Prod.fst = [35, 30, 25, 20, 15, 10, 5, 0] ∧
    (belowFreezingToken :: accentLadder.map Prod.snd).Nodup ∧
    (belowFreezingToken :: accentLadder.map Prod.snd).length = 9 ∧
    getTemperatureAccentColor 30 = "rgba(255, 140, 0, 0.1)" ∧
    getTemperatureAccentColor 29.9 = "rgba(255, 215, 0, 0.1)" := by
  refine ⟨?_, ?_, rfl, by decide, rfl, ?_, ?_⟩
  · intro cut token hmem hcut hmax
    have h35 := hmax (35, "rgba(255, 69, 0, 0.1)") (by simp [accentLadder])
    have h30 := hmax (30, "rgba(255, 140, 0, 0.1)") (by simp [accentLadder])
    have h25 := hmax (25, "rgba(255, 215, 0, 0.1)") (by simp [accentLadder])
    have h20 := hmax (20, "rgba(152, 251, 152, 0.1)") (by simp [accentLadder])
    have h15 := hmax (15, "rgba(135, 206, 235, 0.1)") (by simp [accentLadder])
    have h10 := hmax (10, "rgba(65, 105, 225, 0.1)") (by simp [accentLadder])
    have h5 := hmax (5, "rgba(30, 144, 255, 0.1)") (by simp [accentLadder])
    have h0 := hmax (0, "rgba(0, 191, 255, 0.1)") (by simp [accentLadder])
    simp only at h35 h30 h25 h20 h15 h10 h5 h0
    simp only [accentLadder, List.mem_cons, Prod.mk.injEq, List.mem_singleton,
      List.not_mem_nil, or_false] at hmem
    unfold getTemperatureAccentColor
    rcases hmem with ⟨rfl, rfl⟩ | ⟨rfl, rfl⟩ | ⟨rfl, rfl⟩ | ⟨rfl, rfl⟩ | ⟨rfl, rfl⟩ |
      ⟨rfl, rfl⟩ | ⟨rfl, rfl⟩ | ⟨rfl, rfl⟩ <;>
    · norm_num at h35 h30 h25 h20 h15 h10 h5 h0
      split_ifs <;> first | rfl | (exfalso; linarith)
  · intro hneg
    unfold getTemperatureAccentColor belowFreezingToken
    split_ifs <;> first | rfl | (exfalso; linarith)
  · unfold getTemperatureAccentColor
    norm_num
  · unfold getTemperatureAccentColor
    norm_num

/-- Witness of C20 at 29.9 degrees: the greatest cut point below it is 25. -/
theorem accent_color_is_ladder_witness :
    getTemperatureAccentColor 29.9 = "rgba(255, 215, 0, 0.1)" ∧
    getTemperatureAccentColor (-3) = belowFreezingToken :=
  ⟨(accent_color_is_ladder 29.9).1 25 "rgba(255, 215, 0, 0.1)" (by simp [accentLadder])
      (by norm_num)
      (by
        intro p hp hle
        simp only [accentLadder, List.mem_cons, List.mem_singleton, List.not_mem_nil,
          or_false] at hp
        rcases hp with rfl | rfl | rfl | rfl | rfl | rfl | rfl | rfl <;>
          norm_num at hle ⊢),
   (accent_color_is_ladder (-3)).2.1 (by norm_num)⟩

/-! ## C21: provider-shaped hourly data -/

/-- C21: on hourly data whose timestamps have the hours of day 0, 1, ..., 23
in order from midnight (starting over on each further day) and whose
probability sequence has the same length, for every current hour `h < 23`
the function returns the entry at index `h + 1`, whose hour of day is
`h + 1` and whose probability is an element of the sequence; for `h = 23`
it returns the entry at index 0, the midnight at the start of the data. -/
theorem next_hour_on_provider_data (rt : DateRuntime) (ts : List String)
    (ps : List JSNumber) (hlen : 24 ≤ ts.length) (hps : ps.length = ts.length)
    (hhours : ∀ (i : Nat) (t : String), ts[i]? = some t → rt.getHours t = some (i % 24)) :
    (∀ h, h < 23 → ∃ t p, ts[h + 1]? = some t ∧ ps[h + 1]? = some p ∧
      rt.getHours t = some (h + 1) ∧
      getNextHourPrecipitationProbability rt h
        (some { time := some ts, precipitation_probability := some ps }) =
        some { probability := some p, time := rt.hourLabel t }) ∧
    (∃ t0 p0, ts[0]? = some t0 ∧ ps[0]? = some p0 ∧ rt.getHours t0 = some 0 ∧
      getNextHourPrecipitationProbability rt 23
        (some { time := some ts, precipitation_probability := some ps }) =
        some { probability := some p0, time := rt.hourLabel t0 }) := by
  constructor
  · intro h hh
    have hi : h + 1 < ts.length := by omega
    have hi' : h + 1 < ps.length := by omega
    have ht : ts[h + 1]? = some ts[h + 1] := List.getElem?_eq_getElem hi
    have hp : ps[h + 1]? = some ps[h + 1] := List.getElem?_eq_getElem hi'
    have hhour : rt.getHours ts[h + 1] = some (h + 1) := by
      rw [hhours (h + 1) _ ht, Nat.mod_eq_of_lt (by omega)]
    refine ⟨ts[h + 1], ps[h + 1], ht, hp, hhour, ?_⟩
    have hscan := scanHours_first rt h ps ts 0 (h + 1) ts[h + 1] ht
      (by simp [hhour, hourExceeds])
      (by
        intro j u hj hu
        rw [hhours j u hu, Nat.mod_eq_of_lt (by omega)]
        simp only [hourExceeds, decide_eq_false_iff_not]
        omega)
    simp [getNextHourPrecipitationProbability, hscan, hp]
  · have h0 : 0 < ts.length := by omega
    have h0' : 0 < ps.length := by omega
    have ht : ts[0]? = some ts[0] := List.getElem?_eq_getElem h0
    have hp : ps[0]? = some ps[0] := List.getElem?_eq_getElem h0'
    have hhour : rt.getHours ts[0] = some 0 := by
      rw [hhours 0 _ ht]
    refine ⟨ts[0], ps[0], ht, hp, hhour, ?_⟩
    have hall : ∀ u ∈ ts, hourExceeds (rt.getHours u) 23 = false := by
      intro u hu
      obtain ⟨i, hi, rfl⟩ := List.getElem_of_mem hu
      rw [hhours i _ (List.getElem?_eq_getElem hi)]
      simp only [hourExceeds, decide_eq_false_iff_not]
      have := Nat.mod_lt i (by omega : 24 > 0)
      omega
    simp [getNextHourPrecipitationProbability, scanHours_none rt 23 ps ts 0 hall, hp, ht]

theorem dayTimes_hours (i : Nat) (t : String) (h : dayTimes[i]? = some t) :
    isoRuntime.getHours t = some (i % 24) := by
  have hi : i < 24 := by
    have hlt := (List.getElem?_eq_some.mp h).1
    simpa [dayTimes] using hlt
  interval_cases i <;> (cases h; decide)

/-- Witness of C21 on the 24 timestamps of one day: with current hour 13 the
entry of index 14 is returned, with current hour 23 the entry of midnight. -/
theorem next_hour_on_provider_data_witness :
    24 ≤ dayTimes.length ∧ dayProbabilities.length = dayTimes.length ∧
    getNextHourPrecipitationProbability isoRuntime 13
      (some { time := some dayTimes, precipitation_probability := some dayProbabilities }) =
      some { probability := some 98, time := "2 PM" } ∧
    getNextHourPrecipitationProbability isoRuntime 23
      (some { time := some dayTimes, precipitation_probability := some dayProbabilities }) =
      some { probability := some 0, time := "12 AM" } := by
  have hthm := next_hour_on_provider_data isoRuntime dayTimes dayProbabilities
    (by decide) (by decide) dayTimes_hours
  refine ⟨by decide, by decide, ?_, ?_⟩
  · obtain ⟨t, p, ht, hp, -, hres⟩ := hthm.1 13 (by decide)
    cases ht
    cases hp
    exact hres
  · obtain ⟨t0, p0, ht0, hp0, -, hres⟩ := hthm.2
    cases ht0
    cases hp0
    exact hres

end WeatherApp
